import Mathlib

/-!
Verification of the Mediatek Mali GPU governor's core components against its
natural-language specification.

The development shallowly embeds the two source files the claims point at:
`src/datasource/load_monitor.rs` (the prioritized load-sampling fallback
chain) and `src/model/frequency_manager.rs` (frequency-table lookups and the
actuation write-mode state machine).  Rust `i32`/`i64` values are modelled as
`Int`, with explicit two's-complement wrapping (`wrap32`, `wrap64`) at the
points where the Rust code performs fixed-width arithmetic or an `as` cast.
File contents are strings; the string parsing the Rust code performs
(`split_whitespace`, `trim`, `str::parse`, `find`, `lines`) is modelled over
`List Char`.  Fallible operations return `Except`; the process-wide mutable
state (availability flags, previous busy/idle/protm counters) is threaded
explicitly through a `LoadState` record.
-/

/-! ## String-parsing helpers (models of the Rust std string operations) -/

/-- Model of Rust `char::is_whitespace` restricted to the ASCII whitespace
that can occur in the kernel pseudo-files read here. -/
def isWsChar (c : Char) : Bool :=
  c == ' ' || c == '\t' || c == '\n' || c == '\r'

/-- Accumulator pass for `split_whitespace`: splits into maximal runs of
non-whitespace characters, never yielding an empty token. -/
def splitWsAux : List Char → List Char → List (List Char)
  | [], acc => if acc.isEmpty then [] else [acc.reverse]
  | c :: cs, acc =>
    if isWsChar c then
      if acc.isEmpty then splitWsAux cs [] else acc.reverse :: splitWsAux cs []
    else splitWsAux cs (c :: acc)

/-- Model of Rust `str::split_whitespace` over a list of characters. -/
def splitWsCL (l : List Char) : List (List Char) := splitWsAux l []

/-- Model of Rust `str::split_whitespace`. -/
def splitWs (s : String) : List (List Char) := splitWsCL s.data

/-- Model of Rust `str::trim` (ASCII whitespace). -/
def trimCL (l : List Char) : List Char :=
  ((l.dropWhile isWsChar).reverse.dropWhile isWsChar).reverse

/-- A `\r` left at the end of a line by a `\r\n` terminator is dropped,
as Rust `str::lines` does. -/
def dropFinalCR (l : List Char) : List Char :=
  match l.getLast? with
  | some c => if c == '\r' then l.dropLast else l
  | none => l

/-- Split on `\n`; no empty final line for a trailing terminator. -/
def splitLinesAux : List Char → List Char → List (List Char)
  | [], acc => if acc.isEmpty then [] else [acc.reverse]
  | c :: cs, acc =>
    if c == '\n' then acc.reverse :: splitLinesAux cs []
    else splitLinesAux cs (c :: acc)

/-- Model of Rust `str::lines`. -/
def linesOf (s : String) : List (List Char) :=
  (splitLinesAux s.data []).map dropFinalCR

/-- Digit-run accumulator for integer parsing: every character must be an
ASCII digit. -/
def digitsToNatAux : List Char → Nat → Option Nat
  | [], acc => some acc
  | c :: cs, acc =>
    if c.isDigit then digitsToNatAux cs (acc * 10 + (c.toNat - 48)) else none

/-- A non-empty all-digit run parsed as a natural number. -/
def digitsToNat (l : List Char) : Option Nat :=
  if l.isEmpty then none else digitsToNatAux l 0

/-- Optional sign followed by a non-empty digit run, the common core of Rust
`str::parse::<i32>` and `str::parse::<i64>`. -/
def parseIntCL (l : List Char) : Option Int :=
  match l with
  | '+' :: rest => (digitsToNat rest).map (fun n => (n : Int))
  | '-' :: rest => (digitsToNat rest).map (fun n => -(n : Int))
  | _ => (digitsToNat l).map (fun n => (n : Int))

/-- Model of Rust `str::parse::<i32>`: out-of-range values are a parse error. -/
def parseI32 (l : List Char) : Option Int :=
  match parseIntCL l with
  | some n => if -(2 ^ 31) ≤ n ∧ n < 2 ^ 31 then some n else none
  | none => none

/-- Model of Rust `str::parse::<i64>`: out-of-range values are a parse error. -/
def parseI64 (l : List Char) : Option Int :=
  match parseIntCL l with
  | some n => if -(2 ^ 63) ≤ n ∧ n < 2 ^ 63 then some n else none
  | none => none

/-- The characters after the first occurrence of `pat` in the haystack, the
way Rust `str::find` followed by slicing past the pattern is used here;
`none` when `pat` does not occur. -/
def subAfterAux (pat : List Char) : List Char → Option (List Char)
  | [] => if pat.isEmpty then some [] else none
  | c :: cs =>
    if pat.isPrefixOf (c :: cs) then some ((c :: cs).drop pat.length)
    else subAfterAux pat cs

/-- The text after the first occurrence of `pat` in `s`. -/
def afterFirst (s : String) (pat : String) : Option (List Char) :=
  subAfterAux pat.data s.data

/-- Two's-complement wrap to 32 bits, the semantics of Rust `i32` arithmetic
and of an `as i32` cast. -/
def wrap32 (n : Int) : Int := (n + 2 ^ 31) % 2 ^ 32 - 2 ^ 31

/-- Two's-complement wrap to 64 bits, the semantics of Rust `i64` arithmetic. -/
def wrap64 (n : Int) : Int := (n + 2 ^ 63) % 2 ^ 64 - 2 ^ 63

theorem wrap32_eq_of_bounds {n : Int} (h1 : -(2 ^ 31) ≤ n) (h2 : n < 2 ^ 31) :
    wrap32 n = n := by
  unfold wrap32
  have h3 : (0 : Int) ≤ n + 2 ^ 31 := by omega
  have h4 : n + 2 ^ 31 < 2 ^ 32 := by omega
  rw [Int.emod_eq_of_lt h3 h4]
  omega

theorem wrap64_eq_of_bounds {n : Int} (h1 : -(2 ^ 63) ≤ n) (h2 : n < 2 ^ 63) :
    wrap64 n = n := by
  unfold wrap64
  have h3 : (0 : Int) ≤ n + 2 ^ 63 := by omega
  have h4 : n + 2 ^ 63 < 2 ^ 64 := by omega
  rw [Int.emod_eq_of_lt h3 h4]
  omega

/-! ## Errors and the sampler state

`GovError` stands for the `anyhow::Error` values of the Rust code, keeping
just enough structure to distinguish an I/O-level failure (open/read error)
from a parse failure. -/

inductive GovError where
  | io : String → GovError
  | parse : String → GovError
deriving DecidableEq

/-- The process-wide state the load-sampling chain reads and mutates: the
per-path availability flags kept by `utils::file_status`, the observable file
system (`none` for a path whose open/read fails at the I/O level), and the
`static` previous busy/idle/protm counters of `debug_dvfs_load_func`. -/
structure LoadState where
  status : String → Bool
  files : String → Option String
  prevBusy : Int
  prevIdle : Int
  prevProtm : Int

/-! ## Path constants

Modelled from the spec: the path constants live in `datasource/file_path.rs`,
which is not under src/.  Spec section 6 describes the files (module GED
load/idle, kernel and kernel-debug GED files, Mali and MTK proc files, the
gpufreq loading file, the two precise-counter path variants, and the
voltage/opp control files of the two driver generations); the exact literals
are unknown, so they are modelled as distinct path strings. -/

def MODULE_LOAD : String := "/sys/module/ged/parameters/gpu_loading"

def MODULE_IDLE : String := "/sys/module/ged/parameters/gpu_idle"

def KERNEL_LOAD : String := "/sys/kernel/ged/gpu_utilization"

def KERNEL_D_LOAD : String := "/sys/kernel/debug/ged/hal/gpu_utilization_d"

def KERNEL_DEBUG_LOAD : String := "/sys/kernel/debug/ged/hal/gpu_utilization"

def PROC_MALI_LOAD : String := "/proc/mali/utilization"

def PROC_MTK_LOAD : String := "/proc/mtk_mali/utilization"

def GPU_FREQ_LOAD_PATH : String := "/proc/gpufreq/gpufreq_var_dump"

def DEBUG_DVFS_LOAD : String := "/sys/kernel/debug/mali0/dvfs_utilization"

def DEBUG_DVFS_LOAD_OLD : String := "/proc/mali/dvfs_utilization"

def GPUFREQ_VOLT : String := "/proc/gpufreq/gpufreq_fixed_freq_volt"

def GPUFREQ_OPP : String := "/proc/gpufreq/gpufreq_opp_freq"

def GPUFREQV2_VOLT : String := "/proc/gpufreqv2/fix_custom_freq_volt"

def GPUFREQV2_OPP : String := "/proc/gpufreqv2/fix_target_opp_index"

/-! ## File status and reading

Modelled from the spec: `get_status`/`write_status` come from
`utils::file_status` and `read_file` from `utils::file_operate`, neither of
which is under src/.  Per spec sections 4.1, 6 and 7 the flags are
"startup-probed, monotonically-sticky availability" flags and "a source
becomes permanently disabled only on an I/O-level failure (open/read
error)", so `read_file` clears the path's flag on an open/read failure and
propagates the error, and leaves all state unchanged on success.  (The Rust
helper also takes a byte-size cap — 32 or 256 at the call sites — which does
not affect what content a successful read of these short pseudo-files
returns, so the model drops it.) -/

def get_status (s : LoadState) (path : String) : Bool := s.status path

def write_status (s : LoadState) (path : String) (b : Bool) : LoadState :=
  { s with status := fun p => if p = path then b else s.status p }

def read_file (s : LoadState) (path : String) : LoadState × Except GovError String :=
  match s.files path with
  | some buf => (s, Except.ok buf)
  | none => (write_status s path false, Except.error (GovError.io path))

/-! ## The load-sampling chain (`src/datasource/load_monitor.rs`)

Each Rust sampler `fn xyz() -> Result<i32>` becomes
`xyz : LoadState → LoadState × Except GovError Int`: the returned state
carries the availability-flag writes and counter updates that outlive the
call even when it returns an error. -/

/-- `module_ged_load` (load_monitor.rs lines 17-29): the lowest-priority
source; returns `-1` when its flag is down, otherwise parses the whole
(trimmed) file as the load. -/
def module_ged_load (s : LoadState) : LoadState × Except GovError Int :=
  if !get_status s MODULE_LOAD then (s, Except.ok (-1)) else
  match read_file s MODULE_LOAD with
  | (s1, Except.error e) => (s1, Except.error e)
  | (s1, Except.ok buf) =>
    match parseI32 (trimCL buf.data) with
    | some load => (s1, Except.ok load)
    | none => (s1, Except.error (GovError.parse MODULE_LOAD))

/-- `module_ged_idle` (lines 31-45): parses the idle percentage and returns
`100 - idle` (i32 arithmetic); parse failure is an error. -/
def module_ged_idle (s : LoadState) : LoadState × Except GovError Int :=
  if !get_status s MODULE_IDLE then module_ged_load s else
  match read_file s MODULE_IDLE with
  | (s1, Except.error e) => (s1, Except.error e)
  | (s1, Except.ok buf) =>
    match parseI32 (trimCL buf.data) with
    | some idle => (s1, Except.ok (wrap32 (100 - idle)))
    | none => (s1, Except.error (GovError.parse MODULE_IDLE))

/-- `kernel_ged_load` (lines 47-68): third whitespace token is idle;
`100 - idle = 0` falls to `module_ged_load`, parse trouble falls to
`module_ged_idle`. -/
def kernel_ged_load (s : LoadState) : LoadState × Except GovError Int :=
  if !get_status s KERNEL_LOAD then module_ged_idle s else
  match read_file s KERNEL_LOAD with
  | (s1, Except.error e) => (s1, Except.error e)
  | (s1, Except.ok buf) =>
    let parts := splitWs buf
    if parts.length ≥ 3 then
      match parseI32 (parts.getD 2 []) with
      | some idle =>
        if wrap32 (100 - idle) == 0 then module_ged_load s1
        else (s1, Except.ok (wrap32 (100 - idle)))
      | none => module_ged_idle s1
    else module_ged_idle s1

/-- `kernel_debug_ged_load` (lines 70-91): same format on `KERNEL_D_LOAD`;
zero load and parse trouble both fall to `kernel_ged_load`. -/
def kernel_debug_ged_load (s : LoadState) : LoadState × Except GovError Int :=
  if !get_status s KERNEL_D_LOAD then kernel_ged_load s else
  match read_file s KERNEL_D_LOAD with
  | (s1, Except.error e) => (s1, Except.error e)
  | (s1, Except.ok buf) =>
    let parts := splitWs buf
    if parts.length ≥ 3 then
      match parseI32 (parts.getD 2 []) with
      | some idle =>
        if wrap32 (100 - idle) == 0 then kernel_ged_load s1
        else (s1, Except.ok (wrap32 (100 - idle)))
      | none => kernel_ged_load s1
    else kernel_ged_load s1

/-- `kernel_d_ged_load` (lines 93-114): same format on `KERNEL_DEBUG_LOAD`;
zero load and parse trouble both fall to `kernel_debug_ged_load`. -/
def kernel_d_ged_load (s : LoadState) : LoadState × Except GovError Int :=
  if !get_status s KERNEL_DEBUG_LOAD then kernel_debug_ged_load s else
  match read_file s KERNEL_DEBUG_LOAD with
  | (s1, Except.error e) => (s1, Except.error e)
  | (s1, Except.ok buf) =>
    let parts := splitWs buf
    if parts.length ≥ 3 then
      match parseI32 (parts.getD 2 []) with
      | some idle =>
        if wrap32 (100 - idle) == 0 then kernel_debug_ged_load s1
        else (s1, Except.ok (wrap32 (100 - idle)))
      | none => kernel_debug_ged_load s1
    else kernel_debug_ged_load s1

/-- `mali_load` (lines 116-136): value after the first `=`; a zero load and
parse trouble both fall to `kernel_d_ged_load`. -/
def mali_load (s : LoadState) : LoadState × Except GovError Int :=
  if !get_status s PROC_MALI_LOAD then kernel_d_ged_load s else
  match read_file s PROC_MALI_LOAD with
  | (s1, Except.error e) => (s1, Except.error e)
  | (s1, Except.ok buf) =>
    match afterFirst buf "=" with
    | some rest =>
      match parseI32 (trimCL rest) with
      | some load =>
        if load == 0 then kernel_d_ged_load s1 else (s1, Except.ok load)
      | none => kernel_d_ged_load s1
    | none => kernel_d_ged_load s1

/-- `mtk_load` (lines 138-154): value after the first `ACTIVE=`; a zero load
and parse trouble both fall to `mali_load`. -/
def mtk_load (s : LoadState) : LoadState × Except GovError Int :=
  if !get_status s PROC_MTK_LOAD then mali_load s else
  match read_file s PROC_MTK_LOAD with
  | (s1, Except.error e) => (s1, Except.error e)
  | (s1, Except.ok buf) =>
    match afterFirst buf "ACTIVE=" with
    | some rest =>
      match parseI32 (trimCL rest) with
      | some load =>
        if load == 0 then mali_load s1 else (s1, Except.ok load)
      | none => mali_load s1
    | none => mali_load s1

/-- The line loop of `gpufreq_load`: the first line holding a parseable
`gpu_loading = N` decides; a zero value falls to `mtk_load`, and so does
running out of lines. -/
def gpufreq_scan (s : LoadState) : List (List Char) → LoadState × Except GovError Int
  | [] => mtk_load s
  | line :: rest =>
    match subAfterAux "gpu_loading = ".data line with
    | some tail =>
      match parseI32 (trimCL tail) with
      | some load => if load == 0 then mtk_load s else (s, Except.ok load)
      | none => gpufreq_scan s rest
    | none => gpufreq_scan s rest

/-- `gpufreq_load` (lines 156-184): opens `GPU_FREQ_LOAD_PATH` directly; an
open failure clears the flag and returns `Ok(0)`; otherwise the line loop
runs. -/
def gpufreq_load (s : LoadState) : LoadState × Except GovError Int :=
  if !get_status s GPU_FREQ_LOAD_PATH then mtk_load s else
  match s.files GPU_FREQ_LOAD_PATH with
  | none => (write_status s GPU_FREQ_LOAD_PATH false, Except.ok 0)
  | some content => gpufreq_scan s (linesOf content)

/-- Body of `debug_dvfs_load_func` (lines 186-245) after the path choice:
reads the chosen precise-counter file, parses `busy idle protm` from its
second line, takes deltas against the process-wide previous triplet (always
updating it on a successful parse), and computes
`(Δbusy+Δprotm)*100/Δtotal` in wrapping i64 arithmetic, cast `as i32` and
clamped below at 0; a zero load falls to `mtk_load`, an invalid sample
(`Δtotal ≤ 0`) and parse trouble fall to `gpufreq_load`. -/
def debug_dvfs_with (s : LoadState) (path : String) : LoadState × Except GovError Int :=
  match read_file s path with
  | (s1, Except.error e) => (s1, Except.error e)
  | (s1, Except.ok buf) =>
    let lines := linesOf buf
    if lines.length < 2 then gpufreq_load s1 else
    let parts := splitWsCL (lines.getD 1 [])
    if parts.length ≥ 3 then
      match parseI64 (parts.getD 0 []), parseI64 (parts.getD 1 []),
            parseI64 (parts.getD 2 []) with
      | some busy, some idle, some protm =>
        let diff_busy := wrap64 (busy - s1.prevBusy)
        let diff_idle := wrap64 (idle - s1.prevIdle)
        let diff_protm := wrap64 (protm - s1.prevProtm)
        let s2 := { s1 with prevBusy := busy, prevIdle := idle, prevProtm := protm }
        let total := wrap64 (wrap64 (diff_busy + diff_idle) + diff_protm)
        if total > 0 then
          let load0 := wrap32 (Int.tdiv (wrap64 (wrap64 (diff_busy + diff_protm) * 100)) total)
          let load := if load0 < 0 then 0 else load0
          if load == 0 then mtk_load s2 else (s2, Except.ok load)
        else gpufreq_load s2
      | _, _, _ => gpufreq_load s1
    else gpufreq_load s1

/-- `debug_dvfs_load_func` (lines 186-245): chooses the primary precise path,
then the old variant, else falls to `gpufreq_load`. -/
def debug_dvfs_load_func (s : LoadState) : LoadState × Except GovError Int :=
  if get_status s DEBUG_DVFS_LOAD then debug_dvfs_with s DEBUG_DVFS_LOAD
  else if get_status s DEBUG_DVFS_LOAD_OLD then debug_dvfs_with s DEBUG_DVFS_LOAD_OLD
  else gpufreq_load s

/-- `get_gpu_load` (lines 247-249): the public sampling entry point. -/
def get_gpu_load (s : LoadState) : LoadState × Except GovError Int :=
  debug_dvfs_load_func s

/-! ## The frequency manager (`src/model/frequency_manager.rs`)

`FrequencyManager` mirrors the Rust struct; the three `HashMap<i64, i64>`
lookup tables are modelled as partial functions `Int → Option Int` (absent
entries read as 0, as `unwrap_or(&0)` does). -/

structure FrequencyManager where
  config_list : List Int
  freq_volt : Int → Option Int
  freq_dram : Int → Option Int
  def_volt : Int → Option Int
  cur_freq : Int
  cur_freq_idx : Int
  cur_volt : Int
  gpuv2 : Bool
  v2_supported_freqs : List Int

/-- `FrequencyManager::new` (frequency_manager.rs lines 32-44). -/
def FrequencyManager.new : FrequencyManager where
  config_list := []
  freq_volt := fun _ => none
  freq_dram := fun _ => none
  def_volt := fun _ => none
  cur_freq := 0
  cur_freq_idx := 0
  cur_volt := 0
  gpuv2 := false
  v2_supported_freqs := []

/-- `get_volt` (lines 47-49). -/
def get_volt (fm : FrequencyManager) (freq : Int) : Int :=
  (fm.freq_volt freq).getD 0

/-- `unify_id` (lines 263-271): clamps an index into the valid range.  (For
an empty list the Rust `(len - 1) as i64` wraps to `-1`; the model returns
`-1` there as well.) -/
def unify_id (fm : FrequencyManager) (id : Int) : Int :=
  if id < 0 then 0
  else if id ≥ (fm.config_list.length : Int) then (fm.config_list.length : Int) - 1
  else id

/-- `get_freq_by_index` (lines 52-55). -/
def get_freq_by_index (fm : FrequencyManager) (idx : Int) : Int :=
  (fm.config_list.get? (unify_id fm idx).toNat).getD 0

/-- The ascending scan of `read_freq_ge`: the first entry `≥ freq`. -/
def scanGe (freq : Int) : List Int → Option Int
  | [] => none
  | c :: cs => if c ≥ freq then some c else scanGe freq cs

/-- `read_freq_ge` (lines 58-69). -/
def read_freq_ge (fm : FrequencyManager) (freq : Int) : Int :=
  if freq ≤ 0 then (fm.config_list.getLast?).getD 0
  else
    match scanGe freq fm.config_list with
    | some c => c
    | none => (fm.config_list.getLast?).getD 0

/-- The descending scan of `read_freq_le` (the Rust loop walks
`config_list.iter().rev()`): the first entry `≤ freq`. -/
def scanLe (freq : Int) : List Int → Option Int
  | [] => none
  | c :: cs => if c ≤ freq then some c else scanLe freq cs

/-- `read_freq_le` (lines 72-83). -/
def read_freq_le (fm : FrequencyManager) (freq : Int) : Int :=
  if freq ≤ 0 then (fm.config_list.head?).getD 0
  else
    match scanLe freq fm.config_list.reverse with
    | some c => c
    | none => (fm.config_list.head?).getD 0

/-- The enumerating scan of `read_freq_index`: index of the first exact
match, counting from `base`. -/
def scanIdx (freq : Int) : List Int → Nat → Option Nat
  | [], _ => none
  | c :: cs, i => if c = freq then some i else scanIdx freq cs (i + 1)

/-- `read_freq_index` (lines 86-93): exact-match linear scan, 0 if absent. -/
def read_freq_index (fm : FrequencyManager) (freq : Int) : Int :=
  match scanIdx freq fm.config_list 0 with
  | some i => (i : Int)
  | none => 0

/-- The loop body of `get_closest_v2_supported_freq`: keep the accumulated
candidate unless this entry is strictly closer. -/
def closestStep (target : Int) (acc : Int × Nat) (f : Int) : Int × Nat :=
  if (target - f).natAbs < acc.2 then (f, (target - f).natAbs) else acc

/-- `get_closest_v2_supported_freq` (lines 131-148): over the v2-supported
subset, minimal absolute distance to the target, strict improvement only
(first-encountered candidate wins ties); an empty subset returns the target. -/
def get_closest_v2_supported_freq (fm : FrequencyManager) (target_freq : Int) : Int :=
  match fm.v2_supported_freqs with
  | [] => target_freq
  | v0 :: _ =>
    (fm.v2_supported_freqs.foldl (closestStep target_freq)
      (v0, (target_freq - v0).natAbs)).1

/-! ## The actuation engine (`write_freq` and its modes)

Writes are modelled through a `WriteEnv`: `pathExists` is
`std::path::Path::exists`, and `writeRes path content` is the outcome of
`write_file_safe(path, content, _)` — the byte count written, or an I/O
error.  Each mode returns the ordered trace of attempted writes together
with the call's result.

Modelled from the spec: `write_file_safe` itself lives in
`utils::file_operate`, which is not under src/; per spec section 4.4 it
attempts one write and reports failure or a (possibly zero) write result. -/

structure WriteEnv where
  pathExists : String → Bool
  writeRes : String → String → Except GovError Nat

def write_file_safe (env : WriteEnv) (path content : String) (_len : Nat) :
    Except GovError Nat :=
  env.writeRes path content

/-- `write_idle_mode` (lines 208-221): v2 resets the voltage then writes
opp `-1`, retrying with `0` when that write fails or reports 0; v1 resets
the voltage then writes opp `0`. -/
def write_idle_mode (fm : FrequencyManager) (env : WriteEnv)
    (volt_path opp_path volt_reset opp_reset_zero : String) :
    List (String × String) × Except GovError Unit :=
  if fm.gpuv2 then
    match write_file_safe env volt_path volt_reset volt_reset.length with
    | Except.error e => ([(volt_path, volt_reset)], Except.error e)
    | Except.ok _ =>
      match write_file_safe env opp_path "-1" 2 with
      | Except.ok n =>
        if n == 0 then
          match write_file_safe env opp_path opp_reset_zero opp_reset_zero.length with
          | Except.error e =>
            ([(volt_path, volt_reset), (opp_path, "-1"), (opp_path, opp_reset_zero)],
              Except.error e)
          | Except.ok _ =>
            ([(volt_path, volt_reset), (opp_path, "-1"), (opp_path, opp_reset_zero)],
              Except.ok ())
        else ([(volt_path, volt_reset), (opp_path, "-1")], Except.ok ())
      | Except.error _ =>
        match write_file_safe env opp_path opp_reset_zero opp_reset_zero.length with
        | Except.error e =>
          ([(volt_path, volt_reset), (opp_path, "-1"), (opp_path, opp_reset_zero)],
            Except.error e)
        | Except.ok _ =>
          ([(volt_path, volt_reset), (opp_path, "-1"), (opp_path, opp_reset_zero)],
            Except.ok ())
  else
    match write_file_safe env volt_path volt_reset volt_reset.length with
    | Except.error e => ([(volt_path, volt_reset)], Except.error e)
    | Except.ok _ =>
      match write_file_safe env opp_path opp_reset_zero opp_reset_zero.length with
      | Except.error e =>
        ([(volt_path, volt_reset), (opp_path, opp_reset_zero)], Except.error e)
      | Except.ok _ =>
        ([(volt_path, volt_reset), (opp_path, opp_reset_zero)], Except.ok ())

/-- `write_dcs_mode` (lines 224-233): reset voltage, opp `-1`, retry `0` on
failure or zero result. -/
def write_dcs_mode (_fm : FrequencyManager) (env : WriteEnv)
    (volt_path opp_path volt_reset opp_reset_minus_one opp_reset_zero : String) :
    List (String × String) × Except GovError Unit :=
  match write_file_safe env volt_path volt_reset volt_reset.length with
  | Except.error e => ([(volt_path, volt_reset)], Except.error e)
  | Except.ok _ =>
    match write_file_safe env opp_path opp_reset_minus_one opp_reset_minus_one.length with
    | Except.ok n =>
      if n == 0 then
        match write_file_safe env opp_path opp_reset_zero opp_reset_zero.length with
        | Except.error e =>
          ([(volt_path, volt_reset), (opp_path, opp_reset_minus_one),
            (opp_path, opp_reset_zero)], Except.error e)
        | Except.ok _ =>
          ([(volt_path, volt_reset), (opp_path, opp_reset_minus_one),
            (opp_path, opp_reset_zero)], Except.ok ())
      else ([(volt_path, volt_reset), (opp_path, opp_reset_minus_one)], Except.ok ())
    | Except.error _ =>
      match write_file_safe env opp_path opp_reset_zero opp_reset_zero.length with
      | Except.error e =>
        ([(volt_path, volt_reset), (opp_path, opp_reset_minus_one),
          (opp_path, opp_reset_zero)], Except.error e)
      | Except.ok _ =>
        ([(volt_path, volt_reset), (opp_path, opp_reset_minus_one),
          (opp_path, opp_reset_zero)], Except.ok ())

/-- `write_no_volt_mode` (lines 236-241): reset voltage, then write the bare
frequency to the opp file. -/
def write_no_volt_mode (_fm : FrequencyManager) (env : WriteEnv)
    (volt_path opp_path volt_reset content : String) :
    List (String × String) × Except GovError Unit :=
  match write_file_safe env volt_path volt_reset volt_reset.length with
  | Except.error e => ([(volt_path, volt_reset)], Except.error e)
  | Except.ok _ =>
    match write_file_safe env opp_path content content.length with
    | Except.error e => ([(volt_path, volt_reset), (opp_path, content)], Except.error e)
    | Except.ok _ => ([(volt_path, volt_reset), (opp_path, content)], Except.ok ())

/-- `write_normal_mode` (lines 244-260): v2 releases any pinned point
(voltage reset, opp `-1` with `0` retry), sleeps 10ms (real time, outside
the model), then writes the frequency/voltage pair; v1 writes opp `0` then
the pair. -/
def write_normal_mode (fm : FrequencyManager) (env : WriteEnv)
    (volt_path opp_path volt_reset opp_reset_minus_one opp_reset_zero volt_content : String) :
    List (String × String) × Except GovError Unit :=
  if fm.gpuv2 then
    match write_file_safe env volt_path volt_reset volt_reset.length with
    | Except.error e => ([(volt_path, volt_reset)], Except.error e)
    | Except.ok _ =>
      match write_file_safe env opp_path opp_reset_minus_one opp_reset_minus_one.length with
      | Except.ok n =>
        if n == 0 then
          match write_file_safe env opp_path opp_reset_zero opp_reset_zero.length with
          | Except.error e =>
            ([(volt_path, volt_reset), (opp_path, opp_reset_minus_one),
              (opp_path, opp_reset_zero)], Except.error e)
          | Except.ok _ =>
            match write_file_safe env volt_path volt_content volt_content.length with
            | Except.error e =>
              ([(volt_path, volt_reset), (opp_path, opp_reset_minus_one),
                (opp_path, opp_reset_zero), (volt_path, volt_content)], Except.error e)
            | Except.ok _ =>
              ([(volt_path, volt_reset), (opp_path, opp_reset_minus_one),
                (opp_path, opp_reset_zero), (volt_path, volt_content)], Except.ok ())
        else
          match write_file_safe env volt_path volt_content volt_content.length with
          | Except.error e =>
            ([(volt_path, volt_reset), (opp_path, opp_reset_minus_one),
              (volt_path, volt_content)], Except.error e)
          | Except.ok _ =>
            ([(volt_path, volt_reset), (opp_path, opp_reset_minus_one),
              (volt_path, volt_content)], Except.ok ())
      | Except.error _ =>
        match write_file_safe env opp_path opp_reset_zero opp_reset_zero.length with
        | Except.error e =>
          ([(volt_path, volt_reset), (opp_path, opp_reset_minus_one),
            (opp_path, opp_reset_zero)], Except.error e)
        | Except.ok _ =>
          match write_file_safe env volt_path volt_content volt_content.length with
          | Except.error e =>
            ([(volt_path, volt_reset), (opp_path, opp_reset_minus_one),
              (opp_path, opp_reset_zero), (volt_path, volt_content)], Except.error e)
          | Except.ok _ =>
            ([(volt_path, volt_reset), (opp_path, opp_reset_minus_one),
              (opp_path, opp_reset_zero), (volt_path, volt_content)], Except.ok ())
  else
    match write_file_safe env opp_path opp_reset_zero opp_reset_zero.length with
    | Except.error e => ([(opp_path, opp_reset_zero)], Except.error e)
    | Except.ok _ =>
      match write_file_safe env volt_path volt_content volt_content.length with
      | Except.error e =>
        ([(opp_path, opp_reset_zero), (volt_path, volt_content)], Except.error e)
      | Except.ok _ =>
        ([(opp_path, opp_reset_zero), (volt_path, volt_content)], Except.ok ())

/-- `write_freq` (lines 171-205): pick the generation's control-file pair,
no-op successfully when either file is missing, otherwise dispatch on the
mode conditions in order (idle; dcs when needed on v2 at index 0; no-volt
when the voltage is 0; else normal). -/
def write_freq (fm : FrequencyManager) (env : WriteEnv) (need_dcs is_idle : Bool) :
    List (String × String) × Except GovError Unit :=
  let freq_to_use :=
    if fm.gpuv2 then get_closest_v2_supported_freq fm fm.cur_freq else fm.cur_freq
  let content := toString freq_to_use
  let volt_content := toString freq_to_use ++ " " ++ toString fm.cur_volt
  let volt_reset := "0 0"
  let opp_reset_minus_one := "-1"
  let opp_reset_zero := "0"
  let volt_path := if fm.gpuv2 then GPUFREQV2_VOLT else GPUFREQ_VOLT
  let opp_path := if fm.gpuv2 then GPUFREQV2_OPP else GPUFREQ_OPP
  if !env.pathExists volt_path || !env.pathExists opp_path then ([], Except.ok ())
  else if is_idle then
    write_idle_mode fm env volt_path opp_path volt_reset opp_reset_zero
  else if need_dcs && fm.gpuv2 && fm.cur_freq_idx == 0 then
    write_dcs_mode fm env volt_path opp_path volt_reset opp_reset_minus_one opp_reset_zero
  else if fm.cur_volt == 0 then
    write_no_volt_mode fm env volt_path opp_path volt_reset content
  else
    write_normal_mode fm env volt_path opp_path volt_reset opp_reset_minus_one
      opp_reset_zero volt_content

instance : DecidableEq (Except GovError Int) := fun a b =>
  match a, b with
  | Except.ok x, Except.ok y => decidable_of_iff (x = y) (by simp)
  | Except.error x, Except.error y => decidable_of_iff (x = y) (by simp)
  | Except.ok _, Except.error _ => isFalse (by simp)
  | Except.error _, Except.ok _ => isFalse (by simp)

/-! ## Chain lemmas: disabled sources are skipped without probing

Each sampler whose availability flag is down immediately defers to the next
source in the chain, touching neither the flags nor the files. -/

theorem skip_module_ged_load (s : LoadState) (h : s.status MODULE_LOAD = false) :
    module_ged_load s = (s, Except.ok (-1)) := by
  simp [module_ged_load, get_status, h]

theorem skip_module_ged_idle (s : LoadState) (h : s.status MODULE_IDLE = false) :
    module_ged_idle s = module_ged_load s := by
  simp [module_ged_idle, get_status, h]

theorem skip_kernel_ged_load (s : LoadState) (h : s.status KERNEL_LOAD = false) :
    kernel_ged_load s = module_ged_idle s := by
  simp [kernel_ged_load, get_status, h]

theorem skip_kernel_debug_ged_load (s : LoadState) (h : s.status KERNEL_D_LOAD = false) :
    kernel_debug_ged_load s = kernel_ged_load s := by
  simp [kernel_debug_ged_load, get_status, h]

theorem skip_kernel_d_ged_load (s : LoadState) (h : s.status KERNEL_DEBUG_LOAD = false) :
    kernel_d_ged_load s = kernel_debug_ged_load s := by
  simp [kernel_d_ged_load, get_status, h]

theorem skip_mali_load (s : LoadState) (h : s.status PROC_MALI_LOAD = false) :
    mali_load s = kernel_d_ged_load s := by
  simp [mali_load, get_status, h]

theorem skip_mtk_load (s : LoadState) (h : s.status PROC_MTK_LOAD = false) :
    mtk_load s = mali_load s := by
  simp [mtk_load, get_status, h]

theorem skip_gpufreq_load (s : LoadState) (h : s.status GPU_FREQ_LOAD_PATH = false) :
    gpufreq_load s = mtk_load s := by
  simp [gpufreq_load, get_status, h]

theorem skip_debug_dvfs_load_func (s : LoadState) (h1 : s.status DEBUG_DVFS_LOAD = false)
    (h2 : s.status DEBUG_DVFS_LOAD_OLD = false) :
    debug_dvfs_load_func s = gpufreq_load s := by
  simp [debug_dvfs_load_func, get_status, h1, h2]

/-! ## Status evolution: flags are monotone and cleared only by I/O failure -/

/-- The relation between the state a chain call starts from and the state it
leaves behind: no flag is ever raised, and a flag that went down did so on a
path whose open/read fails at the I/O level. -/
def StatusStep (s t : LoadState) : Prop :=
  ∀ p, (s.status p = false → t.status p = false) ∧
    (s.status p = true → t.status p = false → s.files p = none)

theorem statusStep_refl (s : LoadState) : StatusStep s s :=
  fun _ => ⟨fun h => h, fun h1 h2 => absurd h2 (by simp [h1])⟩

theorem statusStep_clear (s : LoadState) (path : String) (h : s.files path = none) :
    StatusStep s (write_status s path false) := by
  intro p
  constructor
  · intro hp
    simp only [write_status]
    split <;> simp [hp]
  · intro hp hdown
    simp only [write_status] at hdown
    by_cases hpp : p = path
    · exact hpp ▸ h
    · simp [hpp, hp] at hdown

theorem statusStep_of_eq {s t u : LoadState} (hst : t.status = s.status)
    (hfi : t.files = s.files) (h : StatusStep t u) : StatusStep s u := by
  intro p
  refine ⟨fun hp => (h p).1 ?_, fun hp hdown => ?_⟩
  · rw [hst]; exact hp
  · rw [← hfi]; exact (h p).2 (by rw [hst]; exact hp) hdown

theorem statusStep_module_ged_load (s : LoadState) :
    StatusStep s (module_ged_load s).1 := by
  by_cases hs : s.status MODULE_LOAD
  · cases hf : s.files MODULE_LOAD with
    | some buf =>
      cases hp : parseI32 (trimCL buf.data) <;>
        simp [module_ged_load, read_file, get_status, hs, hf, hp, statusStep_refl]
    | none =>
      simp only [module_ged_load, read_file, get_status, hs, hf, Bool.not_true,
        Bool.false_eq_true, if_false]
      exact statusStep_clear s MODULE_LOAD hf
  · simp only [Bool.not_eq_true] at hs
    rw [skip_module_ged_load s hs]
    exact statusStep_refl s

theorem statusStep_module_ged_idle (s : LoadState) :
    StatusStep s (module_ged_idle s).1 := by
  by_cases hs : s.status MODULE_IDLE
  · cases hf : s.files MODULE_IDLE with
    | some buf =>
      cases hp : parseI32 (trimCL buf.data) <;>
        simp [module_ged_idle, read_file, get_status, hs, hf, hp, statusStep_refl]
    | none =>
      simp only [module_ged_idle, read_file, get_status, hs, hf, Bool.not_true,
        Bool.false_eq_true, if_false]
      exact statusStep_clear s MODULE_IDLE hf
  · simp only [Bool.not_eq_true] at hs
    rw [skip_module_ged_idle s hs]
    exact statusStep_module_ged_load s

theorem statusStep_kernel_ged_load (s : LoadState) :
    StatusStep s (kernel_ged_load s).1 := by
  by_cases hs : s.status KERNEL_LOAD
  · cases hf : s.files KERNEL_LOAD with
    | some buf =>
      simp only [kernel_ged_load, read_file, get_status, hs, hf, Bool.not_true,
        Bool.false_eq_true, if_false]
      split
      · cases hp : parseI32 ((splitWs buf).getD 2 []) with
        | some idle =>
          simp only [hp]
          split
          · exact statusStep_module_ged_load s
          · exact statusStep_refl s
        | none =>
          simp only [hp]
          exact statusStep_module_ged_idle s
      · exact statusStep_module_ged_idle s
    | none =>
      simp only [kernel_ged_load, read_file, get_status, hs, hf, Bool.not_true,
        Bool.false_eq_true, if_false]
      exact statusStep_clear s KERNEL_LOAD hf
  · simp only [Bool.not_eq_true] at hs
    rw [skip_kernel_ged_load s hs]
    exact statusStep_module_ged_idle s

theorem statusStep_kernel_debug_ged_load (s : LoadState) :
    StatusStep s (kernel_debug_ged_load s).1 := by
  by_cases hs : s.status KERNEL_D_LOAD
  · cases hf : s.files KERNEL_D_LOAD with
    | some buf =>
      simp only [kernel_debug_ged_load, read_file, get_status, hs, hf, Bool.not_true,
        Bool.false_eq_true, if_false]
      split
      · cases hp : parseI32 ((splitWs buf).getD 2 []) with
        | some idle =>
          simp only [hp]
          split
          · exact statusStep_kernel_ged_load s
          · exact statusStep_refl s
        | none =>
          simp only [hp]
          exact statusStep_kernel_ged_load s
      · exact statusStep_kernel_ged_load s
    | none =>
      simp only [kernel_debug_ged_load, read_file, get_status, hs, hf, Bool.not_true,
        Bool.false_eq_true, if_false]
      exact statusStep_clear s KERNEL_D_LOAD hf
  · simp only [Bool.not_eq_true] at hs
    rw [skip_kernel_debug_ged_load s hs]
    exact statusStep_kernel_ged_load s

theorem statusStep_kernel_d_ged_load (s : LoadState) :
    StatusStep s (kernel_d_ged_load s).1 := by
  by_cases hs : s.status KERNEL_DEBUG_LOAD
  · cases hf : s.files KERNEL_DEBUG_LOAD with
    | some buf =>
      simp only [kernel_d_ged_load, read_file, get_status, hs, hf, Bool.not_true,
        Bool.false_eq_true, if_false]
      split
      · cases hp : parseI32 ((splitWs buf).getD 2 []) with
        | some idle =>
          simp only [hp]
          split
          · exact statusStep_kernel_debug_ged_load s
          · exact statusStep_refl s
        | none =>
          simp only [hp]
          exact statusStep_kernel_debug_ged_load s
      · exact statusStep_kernel_debug_ged_load s
    | none =>
      simp only [kernel_d_ged_load, read_file, get_status, hs, hf, Bool.not_true,
        Bool.false_eq_true, if_false]
      exact statusStep_clear s KERNEL_DEBUG_LOAD hf
  · simp only [Bool.not_eq_true] at hs
    rw [skip_kernel_d_ged_load s hs]
    exact statusStep_kernel_debug_ged_load s

theorem statusStep_mali_load (s : LoadState) :
    StatusStep s (mali_load s).1 := by
  by_cases hs : s.status PROC_MALI_LOAD
  · cases hf : s.files PROC_MALI_LOAD with
    | some buf =>
      simp only [mali_load, read_file, get_status, hs, hf, Bool.not_true,
        Bool.false_eq_true, if_false]
      cases ha : afterFirst buf "=" with
      | some rest =>
        simp only [ha]
        cases hp : parseI32 (trimCL rest) with
        | some load =>
          simp only [hp]
          split
          · exact statusStep_kernel_d_ged_load s
          · exact statusStep_refl s
        | none =>
          simp only [hp]
          exact statusStep_kernel_d_ged_load s
      | none =>
        simp only [ha]
        exact statusStep_kernel_d_ged_load s
    | none =>
      simp only [mali_load, read_file, get_status, hs, hf, Bool.not_true,
        Bool.false_eq_true, if_false]
      exact statusStep_clear s PROC_MALI_LOAD hf
  · simp only [Bool.not_eq_true] at hs
    rw [skip_mali_load s hs]
    exact statusStep_kernel_d_ged_load s

theorem statusStep_mtk_load (s : LoadState) :
    StatusStep s (mtk_load s).1 := by
  by_cases hs : s.status PROC_MTK_LOAD
  · cases hf : s.files PROC_MTK_LOAD with
    | some buf =>
      simp only [mtk_load, read_file, get_status, hs, hf, Bool.not_true,
        Bool.false_eq_true, if_false]
      cases ha : afterFirst buf "ACTIVE=" with
      | some rest =>
        simp only [ha]
        cases hp : parseI32 (trimCL rest) with
        | some load =>
          simp only [hp]
          split
          · exact statusStep_mali_load s
          · exact statusStep_refl s
        | none =>
          simp only [hp]
          exact statusStep_mali_load s
      | none =>
        simp only [ha]
        exact statusStep_mali_load s
    | none =>
      simp only [mtk_load, read_file, get_status, hs, hf, Bool.not_true,
        Bool.false_eq_true, if_false]
      exact statusStep_clear s PROC_MTK_LOAD hf
  · simp only [Bool.not_eq_true] at hs
    rw [skip_mtk_load s hs]
    exact statusStep_mali_load s

theorem statusStep_gpufreq_scan (s : LoadState) (lines : List (List Char)) :
    StatusStep s (gpufreq_scan s lines).1 := by
  induction lines with
  | nil => exact statusStep_mtk_load s
  | cons line rest ih =>
    simp only [gpufreq_scan]
    cases ha : subAfterAux "gpu_loading = ".data line with
    | some tail =>
      simp only [ha]
      cases hp : parseI32 (trimCL tail) with
      | some load =>
        simp only [hp]
        split
        · exact statusStep_mtk_load s
        · exact statusStep_refl s
      | none =>
        simp only [hp]
        exact ih
    | none =>
      simp only [ha]
      exact ih

theorem statusStep_gpufreq_load (s : LoadState) :
    StatusStep s (gpufreq_load s).1 := by
  by_cases hs : s.status GPU_FREQ_LOAD_PATH
  · cases hf : s.files GPU_FREQ_LOAD_PATH with
    | some content =>
      simp only [gpufreq_load, get_status, hs, hf, Bool.not_true,
        Bool.false_eq_true, if_false]
      exact statusStep_gpufreq_scan s (linesOf content)
    | none =>
      simp only [gpufreq_load, get_status, hs, hf, Bool.not_true,
        Bool.false_eq_true, if_false]
      exact statusStep_clear s GPU_FREQ_LOAD_PATH hf
  · simp only [Bool.not_eq_true] at hs
    rw [skip_gpufreq_load s hs]
    exact statusStep_mtk_load s

theorem statusStep_debug_dvfs_with (s : LoadState) (path : String) :
    StatusStep s (debug_dvfs_with s path).1 := by
  cases hf : s.files path with
  | some buf =>
    simp only [debug_dvfs_with, read_file, hf]
    split
    · exact statusStep_gpufreq_load s
    · split
      · cases h0 : parseI64 ((splitWsCL ((linesOf buf).getD 1 [])).getD 0 []) with
        | some busy =>
          cases h1 : parseI64 ((splitWsCL ((linesOf buf).getD 1 [])).getD 1 []) with
          | some idle =>
            cases h2 : parseI64 ((splitWsCL ((linesOf buf).getD 1 [])).getD 2 []) with
            | some protm =>
              simp only [h0, h1, h2]
              have hst :
                  ({ s with prevBusy := busy, prevIdle := idle, prevProtm := protm } :
                    LoadState).status = s.status := rfl
              have hfi :
                  ({ s with prevBusy := busy, prevIdle := idle, prevProtm := protm } :
                    LoadState).files = s.files := rfl
              split
              · split <;> split <;>
                  first
                  | exact statusStep_of_eq hst hfi (statusStep_mtk_load _)
                  | exact statusStep_of_eq hst hfi (statusStep_refl _)
              · exact statusStep_of_eq hst hfi (statusStep_gpufreq_load _)
            | none =>
              simp only [h0, h1, h2]
              exact statusStep_gpufreq_load s
          | none =>
            simp only [h0, h1]
            exact statusStep_gpufreq_load s
        | none =>
          simp only [h0]
          exact statusStep_gpufreq_load s
      · exact statusStep_gpufreq_load s
  | none =>
    simp only [debug_dvfs_with, read_file, hf]
    exact statusStep_clear s path hf

theorem statusStep_get_gpu_load (s : LoadState) :
    StatusStep s (get_gpu_load s).1 := by
  by_cases h1 : s.status DEBUG_DVFS_LOAD
  · simp only [get_gpu_load, debug_dvfs_load_func, get_status, h1, if_true]
    exact statusStep_debug_dvfs_with s DEBUG_DVFS_LOAD
  · by_cases h2 : s.status DEBUG_DVFS_LOAD_OLD
    · simp only [get_gpu_load, debug_dvfs_load_func, get_status, h1, h2]
      simp only [Bool.false_eq_true, if_false, if_true]
      exact statusStep_debug_dvfs_with s DEBUG_DVFS_LOAD_OLD
    · simp only [Bool.not_eq_true] at h1 h2
      simp only [get_gpu_load]
      rw [skip_debug_dvfs_load_func s h1 h2]
      exact statusStep_gpufreq_load s

/-! ## Parse-failure behaviour

For every source above the two module-level ones, a parse failure leaves all
state (flags included) unchanged and defers to the next source for this call
only; the two module-level sources propagate a parse failure as an error. -/

theorem parseerr_module_ged_load (s : LoadState) (buf : String)
    (hs : s.status MODULE_LOAD = true) (hf : s.files MODULE_LOAD = some buf)
    (hp : parseI32 (trimCL buf.data) = none) :
    module_ged_load s = (s, Except.error (GovError.parse MODULE_LOAD)) := by
  simp [module_ged_load, read_file, get_status, hs, hf, hp]

theorem parseerr_module_ged_idle (s : LoadState) (buf : String)
    (hs : s.status MODULE_IDLE = true) (hf : s.files MODULE_IDLE = some buf)
    (hp : parseI32 (trimCL buf.data) = none) :
    module_ged_idle s = (s, Except.error (GovError.parse MODULE_IDLE)) := by
  simp [module_ged_idle, read_file, get_status, hs, hf, hp]

theorem parsefail_kernel_ged_load (s : LoadState) (buf : String)
    (hs : s.status KERNEL_LOAD = true) (hf : s.files KERNEL_LOAD = some buf)
    (hp : ∀ idle, (splitWs buf).length ≥ 3 →
      parseI32 ((splitWs buf).getD 2 []) ≠ some idle) :
    kernel_ged_load s = module_ged_idle s := by
  simp only [kernel_ged_load, read_file, get_status, hs, hf, Bool.not_true,
    Bool.false_eq_true, if_false]
  split
  · cases hpp : parseI32 ((splitWs buf).getD 2 []) with
    | some idle => exact absurd hpp (hp idle (by assumption))
    | none => simp only [hpp]
  · rfl

theorem parsefail_kernel_debug_ged_load (s : LoadState) (buf : String)
    (hs : s.status KERNEL_D_LOAD = true) (hf : s.files KERNEL_D_LOAD = some buf)
    (hp : ∀ idle, (splitWs buf).length ≥ 3 →
      parseI32 ((splitWs buf).getD 2 []) ≠ some idle) :
    kernel_debug_ged_load s = kernel_ged_load s := by
  simp only [kernel_debug_ged_load, read_file, get_status, hs, hf, Bool.not_true,
    Bool.false_eq_true, if_false]
  split
  · cases hpp : parseI32 ((splitWs buf).getD 2 []) with
    | some idle => exact absurd hpp (hp idle (by assumption))
    | none => simp only [hpp]
  · rfl

theorem parsefail_kernel_d_ged_load (s : LoadState) (buf : String)
    (hs : s.status KERNEL_DEBUG_LOAD = true) (hf : s.files KERNEL_DEBUG_LOAD = some buf)
    (hp : ∀ idle, (splitWs buf).length ≥ 3 →
      parseI32 ((splitWs buf).getD 2 []) ≠ some idle) :
    kernel_d_ged_load s = kernel_debug_ged_load s := by
  simp only [kernel_d_ged_load, read_file, get_status, hs, hf, Bool.not_true,
    Bool.false_eq_true, if_false]
  split
  · cases hpp : parseI32 ((splitWs buf).getD 2 []) with
    | some idle => exact absurd hpp (hp idle (by assumption))
    | none => simp only [hpp]
  · rfl

theorem parsefail_mali_load (s : LoadState) (buf : String)
    (hs : s.status PROC_MALI_LOAD = true) (hf : s.files PROC_MALI_LOAD = some buf)
    (hp : ∀ rest, afterFirst buf "=" = some rest → parseI32 (trimCL rest) = none) :
    mali_load s = kernel_d_ged_load s := by
  simp only [mali_load, read_file, get_status, hs, hf, Bool.not_true,
    Bool.false_eq_true, if_false]
  cases ha : afterFirst buf "=" with
  | some rest => simp only [ha, hp rest ha]
  | none => simp only [ha]

theorem parsefail_mtk_load (s : LoadState) (buf : String)
    (hs : s.status PROC_MTK_LOAD = true) (hf : s.files PROC_MTK_LOAD = some buf)
    (hp : ∀ rest, afterFirst buf "ACTIVE=" = some rest → parseI32 (trimCL rest) = none) :
    mtk_load s = mali_load s := by
  simp only [mtk_load, read_file, get_status, hs, hf, Bool.not_true,
    Bool.false_eq_true, if_false]
  cases ha : afterFirst buf "ACTIVE=" with
  | some rest => simp only [ha, hp rest ha]
  | none => simp only [ha]

theorem parsefail_gpufreq_scan (s : LoadState) (lines : List (List Char))
    (hp : ∀ line ∈ lines, ∀ tail, subAfterAux "gpu_loading = ".data line = some tail →
      parseI32 (trimCL tail) = none) :
    gpufreq_scan s lines = mtk_load s := by
  induction lines with
  | nil => rfl
  | cons line rest ih =>
    simp only [gpufreq_scan]
    cases ha : subAfterAux "gpu_loading = ".data line with
    | some tail =>
      simp only [ha, hp line (by simp) tail ha]
      exact ih fun l hl t ht => hp l (by simp [hl]) t ht
    | none =>
      simp only [ha]
      exact ih fun l hl t ht => hp l (by simp [hl]) t ht

theorem parsefail_gpufreq_load (s : LoadState) (content : String)
    (hs : s.status GPU_FREQ_LOAD_PATH = true)
    (hf : s.files GPU_FREQ_LOAD_PATH = some content)
    (hp : ∀ line ∈ linesOf content, ∀ tail,
      subAfterAux "gpu_loading = ".data line = some tail → parseI32 (trimCL tail) = none) :
    gpufreq_load s = mtk_load s := by
  simp only [gpufreq_load, get_status, hs, hf, Bool.not_true, Bool.false_eq_true, if_false]
  exact parsefail_gpufreq_scan s (linesOf content) hp

theorem parsefail_debug_dvfs_with (s : LoadState) (path : String) (buf : String)
    (hf : s.files path = some buf)
    (hp : (linesOf buf).length < 2 ∨ (splitWsCL ((linesOf buf).getD 1 [])).length < 3 ∨
      parseI64 ((splitWsCL ((linesOf buf).getD 1 [])).getD 0 []) = none ∨
      parseI64 ((splitWsCL ((linesOf buf).getD 1 [])).getD 1 []) = none ∨
      parseI64 ((splitWsCL ((linesOf buf).getD 1 [])).getD 2 []) = none) :
    debug_dvfs_with s path = gpufreq_load s := by
  simp only [debug_dvfs_with, read_file, hf]
  split
  · rfl
  · rename_i hlen
    split
    · rename_i hparts
      cases h0 : parseI64 ((splitWsCL ((linesOf buf).getD 1 [])).getD 0 []) with
      | none => simp only [h0]
      | some busy =>
        cases h1 : parseI64 ((splitWsCL ((linesOf buf).getD 1 [])).getD 1 []) with
        | none => simp only [h0, h1]
        | some idle =>
          cases h2 : parseI64 ((splitWsCL ((linesOf buf).getD 1 [])).getD 2 []) with
          | none => simp only [h0, h1, h2]
          | some protm =>
            rcases hp with h | h | h | h | h
            · omega
            · omega
            · rw [h0] at h; simp at h
            · rw [h1] at h; simp at h
            · rw [h2] at h; simp at h
    · rfl

/-! ## Zero-load fallthrough behaviour

Every source above the two module-level ones refuses a computed load of
exactly 0; the two module-level sources return whatever they computed. -/

theorem zero_kernel_ged_load (s : LoadState) (buf : String) (idle : Int)
    (hs : s.status KERNEL_LOAD = true) (hf : s.files KERNEL_LOAD = some buf)
    (hlen : (splitWs buf).length ≥ 3)
    (hp : parseI32 ((splitWs buf).getD 2 []) = some idle)
    (hz : wrap32 (100 - idle) = 0) :
    kernel_ged_load s = module_ged_load s := by
  simp only [kernel_ged_load, read_file, get_status, hs, hf, Bool.not_true,
    Bool.false_eq_true, if_false]
  rw [if_pos hlen, hp]
  simp [hz]

theorem zero_kernel_debug_ged_load (s : LoadState) (buf : String) (idle : Int)
    (hs : s.status KERNEL_D_LOAD = true) (hf : s.files KERNEL_D_LOAD = some buf)
    (hlen : (splitWs buf).length ≥ 3)
    (hp : parseI32 ((splitWs buf).getD 2 []) = some idle)
    (hz : wrap32 (100 - idle) = 0) :
    kernel_debug_ged_load s = kernel_ged_load s := by
  simp only [kernel_debug_ged_load, read_file, get_status, hs, hf, Bool.not_true,
    Bool.false_eq_true, if_false]
  rw [if_pos hlen, hp]
  simp [hz]

theorem zero_kernel_d_ged_load (s : LoadState) (buf : String) (idle : Int)
    (hs : s.status KERNEL_DEBUG_LOAD = true) (hf : s.files KERNEL_DEBUG_LOAD = some buf)
    (hlen : (splitWs buf).length ≥ 3)
    (hp : parseI32 ((splitWs buf).getD 2 []) = some idle)
    (hz : wrap32 (100 - idle) = 0) :
    kernel_d_ged_load s = kernel_debug_ged_load s := by
  simp only [kernel_d_ged_load, read_file, get_status, hs, hf, Bool.not_true,
    Bool.false_eq_true, if_false]
  rw [if_pos hlen, hp]
  simp [hz]

theorem zero_mali_load (s : LoadState) (buf : String) (rest : List Char)
    (hs : s.status PROC_MALI_LOAD = true) (hf : s.files PROC_MALI_LOAD = some buf)
    (ha : afterFirst buf "=" = some rest) (hp : parseI32 (trimCL rest) = some 0) :
    mali_load s = kernel_d_ged_load s := by
  simp [mali_load, read_file, get_status, hs, hf, ha, hp]

theorem zero_mtk_load (s : LoadState) (buf : String) (rest : List Char)
    (hs : s.status PROC_MTK_LOAD = true) (hf : s.files PROC_MTK_LOAD = some buf)
    (ha : afterFirst buf "ACTIVE=" = some rest) (hp : parseI32 (trimCL rest) = some 0) :
    mtk_load s = mali_load s := by
  simp [mtk_load, read_file, get_status, hs, hf, ha, hp]

theorem zero_gpufreq_load (s : LoadState) (content : String) (line : List Char)
    (rest : List (List Char)) (tail : List Char)
    (hs : s.status GPU_FREQ_LOAD_PATH = true)
    (hf : s.files GPU_FREQ_LOAD_PATH = some content)
    (hl : linesOf content = line :: rest)
    (ha : subAfterAux "gpu_loading = ".data line = some tail)
    (hp : parseI32 (trimCL tail) = some 0) :
    gpufreq_load s = mtk_load s := by
  simp [gpufreq_load, gpufreq_scan, get_status, hs, hf, hl, ha, hp]

theorem accept_module_ged_idle (s : LoadState) (buf : String) (idle : Int)
    (hs : s.status MODULE_IDLE = true) (hf : s.files MODULE_IDLE = some buf)
    (hp : parseI32 (trimCL buf.data) = some idle) :
    module_ged_idle s = (s, Except.ok (wrap32 (100 - idle))) := by
  simp [module_ged_idle, read_file, get_status, hs, hf, hp]

theorem accept_module_ged_load (s : LoadState) (buf : String) (load : Int)
    (hs : s.status MODULE_LOAD = true) (hf : s.files MODULE_LOAD = some buf)
    (hp : parseI32 (trimCL buf.data) = some load) :
    module_ged_load s = (s, Except.ok load) := by
  simp [module_ged_load, read_file, get_status, hs, hf, hp]

/-! ## The precise-counter computation

Abbreviations for the quantities `debug_dvfs_load_func` computes from a
successfully parsed busy/idle/protm triplet, and the three computation
lemmas (valid positive sample, zero/clamped sample, invalid sample). -/

/-- The wrapped `Δbusy+Δidle+Δprotm` of `debug_dvfs_load_func`. -/
def dvfsTotal (s : LoadState) (busy idle protm : Int) : Int :=
  wrap64 (wrap64 (wrap64 (busy - s.prevBusy) + wrap64 (idle - s.prevIdle)) +
    wrap64 (protm - s.prevProtm))

/-- The wrapped `((Δbusy+Δprotm)*100/Δtotal) as i32` of `debug_dvfs_load_func`. -/
def dvfsLoad0 (s : LoadState) (busy idle protm : Int) : Int :=
  wrap32 (Int.tdiv (wrap64 (wrap64 (wrap64 (busy - s.prevBusy) +
    wrap64 (protm - s.prevProtm)) * 100)) (dvfsTotal s busy idle protm))

/-- The state with the process-wide previous triplet replaced by the freshly
parsed one. -/
def dvfsUpd (s : LoadState) (busy idle protm : Int) : LoadState :=
  { s with prevBusy := busy, prevIdle := idle, prevProtm := protm }

theorem debug_dvfs_with_pos (s : LoadState) (path buf : String) (busy idle protm : Int)
    (hf : s.files path = some buf) (hlen : ¬(linesOf buf).length < 2)
    (hparts : (splitWsCL ((linesOf buf).getD 1 [])).length ≥ 3)
    (h0 : parseI64 ((splitWsCL ((linesOf buf).getD 1 [])).getD 0 []) = some busy)
    (h1 : parseI64 ((splitWsCL ((linesOf buf).getD 1 [])).getD 1 []) = some idle)
    (h2 : parseI64 ((splitWsCL ((linesOf buf).getD 1 [])).getD 2 []) = some protm)
    (htot : dvfsTotal s busy idle protm > 0)
    (hpos : dvfsLoad0 s busy idle protm > 0) :
    debug_dvfs_with s path = (dvfsUpd s busy idle protm,
      Except.ok (dvfsLoad0 s busy idle protm)) := by
  simp only [dvfsTotal, dvfsLoad0, dvfsUpd] at htot hpos ⊢
  simp only [debug_dvfs_with, read_file, hf, hlen, if_false, hparts, if_true, h0, h1, h2]
  split
  · split
    · rename_i hneg
      exfalso
      omega
    · split
      · rename_i hz
        exfalso
        simp only [beq_iff_eq] at hz
        omega
      · rfl
  · rename_i hns
    exfalso
    omega

theorem debug_dvfs_with_zero (s : LoadState) (path buf : String) (busy idle protm : Int)
    (hf : s.files path = some buf) (hlen : ¬(linesOf buf).length < 2)
    (hparts : (splitWsCL ((linesOf buf).getD 1 [])).length ≥ 3)
    (h0 : parseI64 ((splitWsCL ((linesOf buf).getD 1 [])).getD 0 []) = some busy)
    (h1 : parseI64 ((splitWsCL ((linesOf buf).getD 1 [])).getD 1 []) = some idle)
    (h2 : parseI64 ((splitWsCL ((linesOf buf).getD 1 [])).getD 2 []) = some protm)
    (htot : dvfsTotal s busy idle protm > 0)
    (hz : dvfsLoad0 s busy idle protm ≤ 0) :
    debug_dvfs_with s path = mtk_load (dvfsUpd s busy idle protm) := by
  simp only [dvfsTotal, dvfsLoad0, dvfsUpd] at htot hz ⊢
  simp only [debug_dvfs_with, read_file, hf, hlen, if_false, hparts, if_true, h0, h1, h2]
  split
  · split
    · simp
    · rename_i hneg
      have hzz : dvfsLoad0 s busy idle protm = 0 := by
        simp only [dvfsTotal, dvfsLoad0]
        omega
      simp only [dvfsTotal, dvfsLoad0] at hzz
      rw [hzz]
      simp
  · rename_i hns
    exfalso
    omega

theorem debug_dvfs_with_invalid (s : LoadState) (path buf : String) (busy idle protm : Int)
    (hf : s.files path = some buf) (hlen : ¬(linesOf buf).length < 2)
    (hparts : (splitWsCL ((linesOf buf).getD 1 [])).length ≥ 3)
    (h0 : parseI64 ((splitWsCL ((linesOf buf).getD 1 [])).getD 0 []) = some busy)
    (h1 : parseI64 ((splitWsCL ((linesOf buf).getD 1 [])).getD 1 []) = some idle)
    (h2 : parseI64 ((splitWsCL ((linesOf buf).getD 1 [])).getD 2 []) = some protm)
    (htot : dvfsTotal s busy idle protm ≤ 0) :
    debug_dvfs_with s path = gpufreq_load (dvfsUpd s busy idle protm) := by
  simp only [dvfsTotal, dvfsUpd] at htot ⊢
  simp only [debug_dvfs_with, read_file, hf, hlen, if_false, hparts, if_true, h0, h1, h2]
  split
  · rename_i hps
    exfalso
    omega
  · rfl

theorem debug_dvfs_primary (s : LoadState) (hs : s.status DEBUG_DVFS_LOAD = true) :
    debug_dvfs_load_func s = debug_dvfs_with s DEBUG_DVFS_LOAD := by
  simp [debug_dvfs_load_func, get_status, hs]

/-! ## Frequency-table scan lemmas -/

theorem scanGe_eq_none (freq : Int) (l : List Int) :
    scanGe freq l = none ↔ ∀ c ∈ l, c < freq := by
  induction l with
  | nil => simp [scanGe]
  | cons c cs ih =>
    simp only [scanGe]
    split
    · rename_i hc
      constructor
      · intro h
        simp at h
      · intro h
        exact absurd (h c (by simp)) (by omega)
    · rename_i hc
      rw [ih]
      constructor
      · intro h x hx
        rcases List.mem_cons.mp hx with rfl | hx2
        · omega
        · exact h x hx2
      · intro h x hx
        exact h x (List.mem_cons_of_mem c hx)

theorem scanGe_some_spec (freq : Int) (l : List Int) (a : Int)
    (h : scanGe freq l = some a) :
    a ∈ l ∧ freq ≤ a ∧
      (List.Sorted (fun x y => x < y) l → ∀ c ∈ l, freq ≤ c → a ≤ c) := by
  induction l with
  | nil => simp [scanGe] at h
  | cons c cs ih =>
    simp only [scanGe] at h
    split at h
    · rename_i hc
      cases h
      refine ⟨by simp, by omega, ?_⟩
      intro hsort x hx hfx
      rcases List.mem_cons.mp hx with rfl | hx2
      · exact le_refl x
      · have := (List.sorted_cons.mp hsort).1 x hx2
        omega
    · rename_i hc
      obtain ⟨hmem, hge, hmin⟩ := ih h
      refine ⟨List.mem_cons_of_mem c hmem, hge, ?_⟩
      intro hsort x hx hfx
      rcases List.mem_cons.mp hx with rfl | hx2
      · omega
      · exact hmin (List.sorted_cons.mp hsort).2 x hx2 hfx

theorem scanLe_eq_none (freq : Int) (l : List Int) :
    scanLe freq l = none ↔ ∀ c ∈ l, freq < c := by
  induction l with
  | nil => simp [scanLe]
  | cons c cs ih =>
    simp only [scanLe]
    split
    · rename_i hc
      constructor
      · intro h
        simp at h
      · intro h
        exact absurd (h c (by simp)) (by omega)
    · rename_i hc
      rw [ih]
      constructor
      · intro h x hx
        rcases List.mem_cons.mp hx with rfl | hx2
        · omega
        · exact h x hx2
      · intro h x hx
        exact h x (List.mem_cons_of_mem c hx)

theorem scanLe_some_spec (freq : Int) (l : List Int) (a : Int)
    (h : scanLe freq l = some a) :
    a ∈ l ∧ a ≤ freq ∧
      (List.Sorted (fun x y => y < x) l → ∀ c ∈ l, c ≤ freq → c ≤ a) := by
  induction l with
  | nil => simp [scanLe] at h
  | cons c cs ih =>
    simp only [scanLe] at h
    split at h
    · rename_i hc
      cases h
      refine ⟨by simp, by omega, ?_⟩
      intro hsort x hx hfx
      rcases List.mem_cons.mp hx with rfl | hx2
      · exact le_refl x
      · have := (List.sorted_cons.mp hsort).1 x hx2
        omega
    · rename_i hc
      obtain ⟨hmem, hge, hmin⟩ := ih h
      refine ⟨List.mem_cons_of_mem c hmem, hge, ?_⟩
      intro hsort x hx hfx
      rcases List.mem_cons.mp hx with rfl | hx2
      · omega
      · exact hmin (List.sorted_cons.mp hsort).2 x hx2 hfx

theorem sorted_le_last : ∀ (l : List Int), List.Sorted (fun x y => x < y) l →
    ∀ c ∈ l, c ≤ (l.getLast?).getD 0
  | [], _, c, hc => by simp at hc
  | [a], _, c, hc => by
    simp at hc
    simp [hc]
  | a :: b :: t, hs, c, hc => by
    have hrec := sorted_le_last (b :: t) (List.sorted_cons.mp hs).2
    rw [List.getLast?_cons_cons]
    rcases List.mem_cons.mp hc with rfl | hc2
    · have hb := hrec b (by simp)
      have hab := (List.sorted_cons.mp hs).1 b (by simp)
      omega
    · exact hrec c hc2

theorem sorted_head_le (l : List Int) (hs : List.Sorted (fun x y => x < y) l) :
    ∀ c ∈ l, (l.head?).getD 0 ≤ c := by
  cases l with
  | nil => simp
  | cons a t =>
    intro c hc
    rcases List.mem_cons.mp hc with rfl | hc2
    · simp
    · have := (List.sorted_cons.mp hs).1 c hc2
      simp only [List.head?_cons, Option.getD_some]
      omega

theorem last_getD_mem : ∀ (l : List Int), l ≠ [] → (l.getLast?).getD 0 ∈ l
  | [], h => absurd rfl h
  | [a], _ => by simp
  | a :: b :: t, _ => by
    rw [List.getLast?_cons_cons]
    exact List.mem_cons_of_mem a (last_getD_mem (b :: t) (by simp))

theorem head_getD_mem (l : List Int) (h : l ≠ []) : (l.head?).getD 0 ∈ l := by
  cases l with
  | nil => exact absurd rfl h
  | cons a t => simp

/-! ## Index round-trip lemmas -/

theorem scanIdx_nodup (freq : Int) : ∀ (l : List Int), l.Nodup →
    ∀ (k : Nat) (hk : k < l.length), l.get ⟨k, hk⟩ = freq →
    ∀ (base : Nat), scanIdx freq l base = some (base + k) := by
  intro l
  induction l with
  | nil =>
    intro _ k hk
    simp at hk
  | cons a t ih =>
    intro hnd k hk hval base
    cases k with
    | zero =>
      simp only [List.get] at hval
      simp [scanIdx, hval]
    | succ k2 =>
      have hmem : freq ∈ t := by
        rw [← hval]
        simp only [List.get]
        exact List.get_mem t _ _
      have hne : ¬a = freq := by
        intro he
        exact (List.nodup_cons.mp hnd).1 (he ▸ hmem)
      simp only [scanIdx, if_neg hne]
      rw [ih (List.nodup_cons.mp hnd).2 k2 (by simpa using hk) (by simpa using hval) (base + 1)]
      congr 1
      omega

/-! ## Closest-frequency lemmas

`specFirstClosest` restates the spec's words for `closest_v2` — minimal
absolute distance, first-encountered candidate on ties — as a structural
recursion; the bridge lemma proves the Rust fold equal to it. -/

def specFirstClosest (t : Int) : List Int → Option Int
  | [] => none
  | x :: rest =>
    match specFirstClosest t rest with
    | none => some x
    | some y => if (t - y).natAbs < (t - x).natAbs then some y else some x

/-- How a fold seeded with candidate `cf` resolves against the best of the
remaining list. -/
def pickCl (t cf : Int) : Option Int → Int
  | none => cf
  | some y => if (t - y).natAbs < (t - cf).natAbs then y else cf

theorem specFirstClosest_cons_none (t a : Int) (rest : List Int)
    (hr : specFirstClosest t rest = none) :
    specFirstClosest t (a :: rest) = some a := by
  simp [specFirstClosest, hr]

theorem specFirstClosest_cons_better (t a y : Int) (rest : List Int)
    (hr : specFirstClosest t rest = some y)
    (hy : (t - y).natAbs < (t - a).natAbs) :
    specFirstClosest t (a :: rest) = some y := by
  simp [specFirstClosest, hr, hy]

theorem specFirstClosest_cons_keep (t a y : Int) (rest : List Int)
    (hr : specFirstClosest t rest = some y)
    (hy : ¬(t - y).natAbs < (t - a).natAbs) :
    specFirstClosest t (a :: rest) = some a := by
  simp [specFirstClosest, hr, hy]

theorem closest_foldl_bridge (t : Int) : ∀ (l : List Int) (cf : Int),
    l.foldl (closestStep t) (cf, (t - cf).natAbs) =
      (pickCl t cf (specFirstClosest t l),
        (t - pickCl t cf (specFirstClosest t l)).natAbs) := by
  intro l
  induction l with
  | nil =>
    intro cf
    simp [pickCl, specFirstClosest]
  | cons a rest ih =>
    intro cf
    simp only [List.foldl_cons]
    cases hr : specFirstClosest t rest with
    | none =>
      rw [specFirstClosest_cons_none t a rest hr]
      by_cases hc : (t - a).natAbs < (t - cf).natAbs
      · rw [show closestStep t (cf, (t - cf).natAbs) a = (a, (t - a).natAbs) from by
          simp [closestStep, hc]]
        rw [ih a, hr]
        simp only [pickCl]
        rw [if_pos hc]
      · rw [show closestStep t (cf, (t - cf).natAbs) a = (cf, (t - cf).natAbs) from by
          simp [closestStep, hc]]
        rw [ih cf, hr]
        simp only [pickCl]
        rw [if_neg hc]
    | some y =>
      by_cases hy : (t - y).natAbs < (t - a).natAbs
      · rw [specFirstClosest_cons_better t a y rest hr hy]
        by_cases hc : (t - a).natAbs < (t - cf).natAbs
        · rw [show closestStep t (cf, (t - cf).natAbs) a = (a, (t - a).natAbs) from by
            simp [closestStep, hc]]
          rw [ih a, hr]
          simp only [pickCl]
          rw [if_pos hy, if_pos (by omega)]
        · rw [show closestStep t (cf, (t - cf).natAbs) a = (cf, (t - cf).natAbs) from by
            simp [closestStep, hc]]
          rw [ih cf, hr]
      · rw [specFirstClosest_cons_keep t a y rest hr hy]
        by_cases hc : (t - a).natAbs < (t - cf).natAbs
        · rw [show closestStep t (cf, (t - cf).natAbs) a = (a, (t - a).natAbs) from by
            simp [closestStep, hc]]
          rw [ih a, hr]
          simp only [pickCl]
          rw [if_neg hy, if_pos hc]
        · rw [show closestStep t (cf, (t - cf).natAbs) a = (cf, (t - cf).natAbs) from by
            simp [closestStep, hc]]
          rw [ih cf, hr]
          simp only [pickCl]
          rw [if_neg hc, if_neg (by omega)]

theorem closest_eq_spec (fm : FrequencyManager) (t : Int) :
    get_closest_v2_supported_freq fm t =
      match specFirstClosest t fm.v2_supported_freqs with
      | none => t
      | some y => y := by
  cases hl : fm.v2_supported_freqs with
  | nil => simp [get_closest_v2_supported_freq, hl, specFirstClosest]
  | cons v0 rest =>
    simp only [get_closest_v2_supported_freq, hl]
    rw [List.foldl_cons]
    rw [show closestStep t (v0, (t - v0).natAbs) v0 = (v0, (t - v0).natAbs) from by
      simp [closestStep]]
    rw [closest_foldl_bridge t rest v0]
    cases hr : specFirstClosest t rest with
    | none =>
      rw [specFirstClosest_cons_none t v0 rest hr]
      simp [pickCl]
    | some y =>
      by_cases hy : (t - y).natAbs < (t - v0).natAbs
      · rw [specFirstClosest_cons_better t v0 y rest hr hy]
        simp only [pickCl]
        rw [if_pos hy]
      · rw [specFirstClosest_cons_keep t v0 y rest hr hy]
        simp only [pickCl]
        rw [if_neg hy]

theorem specFirstClosest_mem (t : Int) : ∀ (l : List Int) (m : Int),
    specFirstClosest t l = some m → m ∈ l := by
  intro l
  induction l with
  | nil =>
    intro m h
    simp [specFirstClosest] at h
  | cons a rest ih =>
    intro m h
    cases hr : specFirstClosest t rest with
    | none =>
      rw [specFirstClosest_cons_none t a rest hr] at h
      cases h
      simp
    | some y =>
      by_cases hy : (t - y).natAbs < (t - a).natAbs
      · rw [specFirstClosest_cons_better t a y rest hr hy] at h
        cases h
        exact List.mem_cons_of_mem a (ih _ hr)
      · rw [specFirstClosest_cons_keep t a y rest hr hy] at h
        cases h
        simp

theorem specFirstClosest_min (t : Int) : ∀ (l : List Int) (m : Int),
    specFirstClosest t l = some m → ∀ x ∈ l, (t - m).natAbs ≤ (t - x).natAbs := by
  intro l
  induction l with
  | nil =>
    intro m h
    simp [specFirstClosest] at h
  | cons a rest ih =>
    intro m h x hx
    cases hr : specFirstClosest t rest with
    | none =>
      rw [specFirstClosest_cons_none t a rest hr] at h
      cases h
      rcases List.mem_cons.mp hx with rfl | hx2
      · exact le_refl _
      · cases hrr : rest with
        | nil => rw [hrr] at hx2; simp at hx2
        | cons b t2 =>
          rw [hrr] at hr
          cases hb : specFirstClosest t t2 with
          | none => rw [specFirstClosest_cons_none t b t2 hb] at hr; cases hr
          | some z =>
            by_cases hz : (t - z).natAbs < (t - b).natAbs
            · rw [specFirstClosest_cons_better t b z t2 hb hz] at hr; cases hr
            · rw [specFirstClosest_cons_keep t b z t2 hb hz] at hr; cases hr
    | some y =>
      by_cases hy : (t - y).natAbs < (t - a).natAbs
      · rw [specFirstClosest_cons_better t a y rest hr hy] at h
        cases h
        rcases List.mem_cons.mp hx with rfl | hx2
        · omega
        · exact ih _ hr x hx2
      · rw [specFirstClosest_cons_keep t a y rest hr hy] at h
        cases h
        rcases List.mem_cons.mp hx with rfl | hx2
        · exact le_refl _
        · have := ih _ hr x hx2
          omega

theorem specFirstClosest_first (t : Int) : ∀ (l : List Int) (m : Int),
    specFirstClosest t l = some m →
    ∃ pre post, l = pre ++ m :: post ∧ ∀ x ∈ pre, (t - m).natAbs < (t - x).natAbs := by
  intro l
  induction l with
  | nil =>
    intro m h
    simp [specFirstClosest] at h
  | cons a rest ih =>
    intro m h
    cases hr : specFirstClosest t rest with
    | none =>
      rw [specFirstClosest_cons_none t a rest hr] at h
      cases h
      exact ⟨[], rest, rfl, by simp⟩
    | some y =>
      by_cases hy : (t - y).natAbs < (t - a).natAbs
      · rw [specFirstClosest_cons_better t a y rest hr hy] at h
        cases h
        obtain ⟨pre, post, heq, hpre⟩ := ih _ hr
        refine ⟨a :: pre, post, by simp [heq], ?_⟩
        intro x hx
        rcases List.mem_cons.mp hx with rfl | hx2
        · exact hy
        · exact hpre x hx2
      · rw [specFirstClosest_cons_keep t a y rest hr hy] at h
        cases h
        exact ⟨[], rest, rfl, by simp⟩

/-! ## Concrete fixtures -/

/-- A state with every availability flag down and no readable file. -/
def stAllOff : LoadState where
  status := fun _ => false
  files := fun _ => none
  prevBusy := 0
  prevIdle := 0
  prevProtm := 0

/-- Kernel GED reports idle 100 (load 0); module GED idle would report load
40; module GED raw load reports 7. -/
def cexC1 : LoadState where
  status := fun p => p == KERNEL_LOAD || p == MODULE_IDLE || p == MODULE_LOAD
  files := fun p =>
    if p == KERNEL_LOAD then some "x y 100"
    else if p == MODULE_IDLE then some "60"
    else if p == MODULE_LOAD then some "7"
    else none
  prevBusy := 0
  prevIdle := 0
  prevProtm := 0

/-- Module GED idle holds unparsable text while module GED raw load holds a
valid 42. -/
def cexC2 : LoadState where
  status := fun p => p == MODULE_IDLE || p == MODULE_LOAD
  files := fun p =>
    if p == MODULE_IDLE then some "abc"
    else if p == MODULE_LOAD then some "42"
    else none
  prevBusy := 0
  prevIdle := 0
  prevProtm := 0

/-- Precise counters: previous triplet (100, 50, 0), current file reports
(150, 70, 10) on its second line. -/
def cexC4 : LoadState where
  status := fun p => p == DEBUG_DVFS_LOAD
  files := fun p =>
    if p == DEBUG_DVFS_LOAD then some "busy idle protm\n150 70 10" else none
  prevBusy := 100
  prevIdle := 50
  prevProtm := 0

/-- The spec's example table [100, 200, 300]. -/
def tableExample : FrequencyManager :=
  { FrequencyManager.new with config_list := [100, 200, 300] }

/-- The spec's example v2-supported subset {200, 400}. -/
def v2Example : FrequencyManager :=
  { FrequencyManager.new with v2_supported_freqs := [200, 400] }

/-- A v2-driver manager with a voltage and a non-zero index. -/
def fmV2 : FrequencyManager :=
  { FrequencyManager.new with
    config_list := [300, 400]
    v2_supported_freqs := [300, 400]
    cur_freq := 400
    cur_freq_idx := 1
    cur_volt := 65000
    gpuv2 := true }

/-- Both control files exist and every write succeeds with one byte. -/
def envAllOk : WriteEnv where
  pathExists := fun _ => true
  writeRes := fun _ _ => Except.ok 1

/-- No control file exists. -/
def envNone : WriteEnv where
  pathExists := fun _ => false
  writeRes := fun _ _ => Except.ok 1

/-! ## The claims -/

/-- C1, counterexample.  In `cexC1` the kernel GED source computes a load of
exactly 0 (third token 100, `100 - 100 = 0`), and the claim says the call
then returns the next source's result — module GED idle's `Ok(40)`.  It
actually returns `Ok(7)`, the result of `module_ged_load`, skipping
`module_ged_idle`. -/
theorem claim1_counterexample :
    parseI32 ((splitWs "x y 100").getD 2 []) = some 100 ∧
    wrap32 (100 - 100) = 0 ∧
    cexC1.status KERNEL_LOAD = true ∧
    cexC1.files KERNEL_LOAD = some "x y 100" ∧
    (module_ged_idle cexC1).2 = Except.ok 40 ∧
    (kernel_ged_load cexC1).2 = Except.ok 7 ∧
    (module_ged_load cexC1).2 = Except.ok 7 := by
  refine ⟨by decide, by decide, by decide, by decide, by decide, by decide, by decide⟩

/-- C1, amended.  A computed load of exactly 0 is refused by every source
except the two lowest-priority module-level ones, and triggers fallthrough —
to the next source in the chain for the kernel-debug GED, Mali, MTK and
gpufreq sources, but the kernel GED load source falls to `module_ged_load`
(skipping `module_ged_idle`), and the precise-counter source falls to
`mtk_load` (skipping `gpufreq_load`).  The two lowest-priority sources
accept a computed load of 0 and return it. -/
theorem claim1_zero_policy :
    (∀ (s : LoadState) (buf : String) (idle : Int),
      s.status KERNEL_LOAD = true → s.files KERNEL_LOAD = some buf →
      (splitWs buf).length ≥ 3 → parseI32 ((splitWs buf).getD 2 []) = some idle →
      wrap32 (100 - idle) = 0 → kernel_ged_load s = module_ged_load s) ∧
    (∀ (s : LoadState) (buf : String) (idle : Int),
      s.status KERNEL_D_LOAD = true → s.files KERNEL_D_LOAD = some buf →
      (splitWs buf).length ≥ 3 → parseI32 ((splitWs buf).getD 2 []) = some idle →
      wrap32 (100 - idle) = 0 → kernel_debug_ged_load s = kernel_ged_load s) ∧
    (∀ (s : LoadState) (buf : String) (idle : Int),
      s.status KERNEL_DEBUG_LOAD = true → s.files KERNEL_DEBUG_LOAD = some buf →
      (splitWs buf).length ≥ 3 → parseI32 ((splitWs buf).getD 2 []) = some idle →
      wrap32 (100 - idle) = 0 → kernel_d_ged_load s = kernel_debug_ged_load s) ∧
    (∀ (s : LoadState) (buf : String) (rest : List Char),
      s.status PROC_MALI_LOAD = true → s.files PROC_MALI_LOAD = some buf →
      afterFirst buf "=" = some rest → parseI32 (trimCL rest) = some 0 →
      mali_load s = kernel_d_ged_load s) ∧
    (∀ (s : LoadState) (buf : String) (rest : List Char),
      s.status PROC_MTK_LOAD = true → s.files PROC_MTK_LOAD = some buf →
      afterFirst buf "ACTIVE=" = some rest → parseI32 (trimCL rest) = some 0 →
      mtk_load s = mali_load s) ∧
    (∀ (s : LoadState) (content : String) (line : List Char) (rest : List (List Char))
      (tail : List Char),
      s.status GPU_FREQ_LOAD_PATH = true → s.files GPU_FREQ_LOAD_PATH = some content →
      linesOf content = line :: rest → subAfterAux "gpu_loading = ".data line = some tail →
      parseI32 (trimCL tail) = some 0 → gpufreq_load s = mtk_load s) ∧
    (∀ (s : LoadState) (buf : String) (busy idle protm : Int),
      s.status DEBUG_DVFS_LOAD = true → s.files DEBUG_DVFS_LOAD = some buf →
      ¬(linesOf buf).length < 2 → (splitWsCL ((linesOf buf).getD 1 [])).length ≥ 3 →
      parseI64 ((splitWsCL ((linesOf buf).getD 1 [])).getD 0 []) = some busy →
      parseI64 ((splitWsCL ((linesOf buf).getD 1 [])).getD 1 []) = some idle →
      parseI64 ((splitWsCL ((linesOf buf).getD 1 [])).getD 2 []) = some protm →
      dvfsTotal s busy idle protm > 0 → dvfsLoad0 s busy idle protm ≤ 0 →
      debug_dvfs_load_func s = mtk_load (dvfsUpd s busy idle protm)) ∧
    (∀ (s : LoadState) (buf : String) (idle : Int),
      s.status MODULE_IDLE = true → s.files MODULE_IDLE = some buf →
      parseI32 (trimCL buf.data) = some idle →
      module_ged_idle s = (s, Except.ok (wrap32 (100 - idle)))) ∧
    (∀ (s : LoadState) (buf : String) (load : Int),
      s.status MODULE_LOAD = true → s.files MODULE_LOAD = some buf →
      parseI32 (trimCL buf.data) = some load →
      module_ged_load s = (s, Except.ok load)) := by
  refine ⟨zero_kernel_ged_load, zero_kernel_debug_ged_load, zero_kernel_d_ged_load,
    zero_mali_load, zero_mtk_load, zero_gpufreq_load, ?_,
    accept_module_ged_idle, accept_module_ged_load⟩
  intro s buf busy idle protm hs hf hlen hparts h0 h1 h2 htot hz
  rw [debug_dvfs_primary s hs]
  exact debug_dvfs_with_zero s DEBUG_DVFS_LOAD buf busy idle protm hf hlen hparts h0 h1 h2
    htot hz

/-- C2, counterexample.  In `cexC2` the module GED idle source is enabled
and its file holds the unparsable text "abc"; the claim says a parse failure
causes fallthrough to the next source (module GED raw load, which would
return `Ok(42)`) — but the call propagates a parse error instead.  The
source does stay enabled. -/
theorem claim2_counterexample :
    cexC2.status MODULE_IDLE = true ∧
    cexC2.files MODULE_IDLE = some "abc" ∧
    parseI32 (trimCL "abc".data) = none ∧
    (module_ged_load cexC2).2 = Except.ok 42 ∧
    (module_ged_idle cexC2).2 = Except.error (GovError.parse MODULE_IDLE) ∧
    (module_ged_idle cexC2).1.status MODULE_IDLE = true := by
  refine ⟨by decide, by decide, by decide, by decide, by decide, by decide⟩

/-- C2, amended.  Availability flags are cleared only on an I/O-level
open/read failure, never on a parse failure; once a flag is down it is never
raised again and the source is skipped (each disabled source defers directly
to the next); a parse failure leaves all state unchanged and falls through
to the next source for that call only in every source above the two
module-level ones — those two propagate a parse failure as an error instead
of falling through. -/
theorem claim2_status_discipline :
    (∀ (s : LoadState) (p : String), s.status p = true →
      (get_gpu_load s).1.status p = false → s.files p = none) ∧
    (∀ (s : LoadState) (p : String), s.status p = false →
      (get_gpu_load s).1.status p = false) ∧
    (∀ s : LoadState, s.status MODULE_LOAD = false →
      module_ged_load s = (s, Except.ok (-1))) ∧
    (∀ s : LoadState, s.status MODULE_IDLE = false →
      module_ged_idle s = module_ged_load s) ∧
    (∀ s : LoadState, s.status KERNEL_LOAD = false →
      kernel_ged_load s = module_ged_idle s) ∧
    (∀ s : LoadState, s.status KERNEL_D_LOAD = false →
      kernel_debug_ged_load s = kernel_ged_load s) ∧
    (∀ s : LoadState, s.status KERNEL_DEBUG_LOAD = false →
      kernel_d_ged_load s = kernel_debug_ged_load s) ∧
    (∀ s : LoadState, s.status PROC_MALI_LOAD = false →
      mali_load s = kernel_d_ged_load s) ∧
    (∀ s : LoadState, s.status PROC_MTK_LOAD = false →
      mtk_load s = mali_load s) ∧
    (∀ s : LoadState, s.status GPU_FREQ_LOAD_PATH = false →
      gpufreq_load s = mtk_load s) ∧
    (∀ s : LoadState, s.status DEBUG_DVFS_LOAD = false →
      s.status DEBUG_DVFS_LOAD_OLD = false →
      debug_dvfs_load_func s = gpufreq_load s) ∧
    (∀ (s : LoadState) (buf : String),
      s.status KERNEL_LOAD = true → s.files KERNEL_LOAD = some buf →
      (∀ idle, (splitWs buf).length ≥ 3 → parseI32 ((splitWs buf).getD 2 []) ≠ some idle) →
      kernel_ged_load s = module_ged_idle s) ∧
    (∀ (s : LoadState) (buf : String),
      s.status KERNEL_D_LOAD = true → s.files KERNEL_D_LOAD = some buf →
      (∀ idle, (splitWs buf).length ≥ 3 → parseI32 ((splitWs buf).getD 2 []) ≠ some idle) →
      kernel_debug_ged_load s = kernel_ged_load s) ∧
    (∀ (s : LoadState) (buf : String),
      s.status KERNEL_DEBUG_LOAD = true → s.files KERNEL_DEBUG_LOAD = some buf →
      (∀ idle, (splitWs buf).length ≥ 3 → parseI32 ((splitWs buf).getD 2 []) ≠ some idle) →
      kernel_d_ged_load s = kernel_debug_ged_load s) ∧
    (∀ (s : LoadState) (buf : String),
      s.status PROC_MALI_LOAD = true → s.files PROC_MALI_LOAD = some buf →
      (∀ rest, afterFirst buf "=" = some rest → parseI32 (trimCL rest) = none) →
      mali_load s = kernel_d_ged_load s) ∧
    (∀ (s : LoadState) (buf : String),
      s.status PROC_MTK_LOAD = true → s.files PROC_MTK_LOAD = some buf →
      (∀ rest, afterFirst buf "ACTIVE=" = some rest → parseI32 (trimCL rest) = none) →
      mtk_load s = mali_load s) ∧
    (∀ (s : LoadState) (content : String),
      s.status GPU_FREQ_LOAD_PATH = true → s.files GPU_FREQ_LOAD_PATH = some content →
      (∀ line ∈ linesOf content, ∀ tail,
        subAfterAux "gpu_loading = ".data line = some tail → parseI32 (trimCL tail) = none) →
      gpufreq_load s = mtk_load s) ∧
    (∀ (s : LoadState) (buf : String),
      s.status DEBUG_DVFS_LOAD = true → s.files DEBUG_DVFS_LOAD = some buf →
      ((linesOf buf).length < 2 ∨ (splitWsCL ((linesOf buf).getD 1 [])).length < 3 ∨
        parseI64 ((splitWsCL ((linesOf buf).getD 1 [])).getD 0 []) = none ∨
        parseI64 ((splitWsCL ((linesOf buf).getD 1 [])).getD 1 []) = none ∨
        parseI64 ((splitWsCL ((linesOf buf).getD 1 [])).getD 2 []) = none) →
      debug_dvfs_load_func s = gpufreq_load s) ∧
    (∀ (s : LoadState) (buf : String),
      s.status MODULE_LOAD = true → s.files MODULE_LOAD = some buf →
      parseI32 (trimCL buf.data) = none →
      module_ged_load s = (s, Except.error (GovError.parse MODULE_LOAD))) ∧
    (∀ (s : LoadState) (buf : String),
      s.status MODULE_IDLE = true → s.files MODULE_IDLE = some buf →
      parseI32 (trimCL buf.data) = none →
      module_ged_idle s = (s, Except.error (GovError.parse MODULE_IDLE))) := by
  refine ⟨fun s p hs hdown => (statusStep_get_gpu_load s p).2 hs hdown,
    fun s p hs => (statusStep_get_gpu_load s p).1 hs,
    skip_module_ged_load, skip_module_ged_idle, skip_kernel_ged_load,
    skip_kernel_debug_ged_load, skip_kernel_d_ged_load, skip_mali_load, skip_mtk_load,
    skip_gpufreq_load, skip_debug_dvfs_load_func,
    parsefail_kernel_ged_load, parsefail_kernel_debug_ged_load, parsefail_kernel_d_ged_load,
    parsefail_mali_load, parsefail_mtk_load, parsefail_gpufreq_load, ?_,
    parseerr_module_ged_load, parseerr_module_ged_idle⟩
  intro s buf hs hf hp
  rw [debug_dvfs_primary s hs]
  exact parsefail_debug_dvfs_with s DEBUG_DVFS_LOAD buf hf hp

/-- C10.  When the lowest-priority module load source's flag is down it
returns `Ok(-1)` without error, and when every source in the chain is
disabled the public entry point `get_gpu_load` returns `Ok(-1)` — a negative
load percentage from a successful call, observed concretely on `stAllOff`. -/
theorem claim10_negative_sentinel :
    (∀ s : LoadState, s.status MODULE_LOAD = false →
      module_ged_load s = (s, Except.ok (-1))) ∧
    (∀ s : LoadState,
      s.status DEBUG_DVFS_LOAD = false → s.status DEBUG_DVFS_LOAD_OLD = false →
      s.status GPU_FREQ_LOAD_PATH = false → s.status PROC_MTK_LOAD = false →
      s.status PROC_MALI_LOAD = false → s.status KERNEL_DEBUG_LOAD = false →
      s.status KERNEL_D_LOAD = false → s.status KERNEL_LOAD = false →
      s.status MODULE_IDLE = false → s.status MODULE_LOAD = false →
      get_gpu_load s = (s, Except.ok (-1))) ∧
    (get_gpu_load stAllOff).2 = Except.ok (-1) := by
  refine ⟨skip_module_ged_load, ?_, by decide⟩
  intro s h1 h2 h3 h4 h5 h6 h7 h8 h9 h10
  show debug_dvfs_load_func s = (s, Except.ok (-1))
  rw [skip_debug_dvfs_load_func s h1 h2, skip_gpufreq_load s h3, skip_mtk_load s h4,
    skip_mali_load s h5, skip_kernel_d_ged_load s h6, skip_kernel_debug_ged_load s h7,
    skip_kernel_ged_load s h8, skip_module_ged_idle s h9, skip_module_ged_load s h10]

theorem tdiv_nonneg_le_100 {A tot : Int} (hA : 0 ≤ A) (ht : 0 < tot)
    (hle : A ≤ 100 * tot) : 0 ≤ A.tdiv tot ∧ A.tdiv tot ≤ 100 := by
  rw [Int.tdiv_eq_ediv hA (by omega)]
  constructor
  · exact Int.ediv_nonneg hA (by omega)
  · have h1 : A / tot ≤ (100 * tot) / tot := Int.ediv_le_ediv ht hle
    rwa [Int.mul_ediv_cancel _ (by omega)] at h1

/-- C4.  The precise-counter source keeps a single process-wide previous
busy/idle/protm triplet, updates it on every successfully parsed read (even
an invalid one), and — for counter values in the monotone, in-range regime
where the Rust fixed-width arithmetic cannot wrap — computes
`load = (Δbusy+Δprotm)*100/Δtotal` with `Δtotal = Δbusy+Δidle+Δprotm`,
returning it when positive; when `Δtotal ≤ 0` the sample is invalid and the
call falls through to the lower-priority `gpufreq_load`.  The negative-
quotient clamp is the `if load0 < 0 then 0` step in `debug_dvfs_with`.  On
prev (100,50,0) and current (150,70,10) the computed load is 75. -/
theorem claim4_precise_counters :
    (∀ (s : LoadState) (buf : String) (busy idle protm : Int),
      s.status DEBUG_DVFS_LOAD = true → s.files DEBUG_DVFS_LOAD = some buf →
      ¬(linesOf buf).length < 2 → (splitWsCL ((linesOf buf).getD 1 [])).length ≥ 3 →
      parseI64 ((splitWsCL ((linesOf buf).getD 1 [])).getD 0 []) = some busy →
      parseI64 ((splitWsCL ((linesOf buf).getD 1 [])).getD 1 []) = some idle →
      parseI64 ((splitWsCL ((linesOf buf).getD 1 [])).getD 2 []) = some protm →
      0 ≤ s.prevBusy → s.prevBusy ≤ busy → busy < 2 ^ 31 →
      0 ≤ s.prevIdle → s.prevIdle ≤ idle → idle < 2 ^ 31 →
      0 ≤ s.prevProtm → s.prevProtm ≤ protm → protm < 2 ^ 31 →
      (busy - s.prevBusy) + (idle - s.prevIdle) + (protm - s.prevProtm) > 0 →
      Int.tdiv (((busy - s.prevBusy) + (protm - s.prevProtm)) * 100)
        ((busy - s.prevBusy) + (idle - s.prevIdle) + (protm - s.prevProtm)) ≠ 0 →
      debug_dvfs_load_func s = (dvfsUpd s busy idle protm,
        Except.ok (Int.tdiv (((busy - s.prevBusy) + (protm - s.prevProtm)) * 100)
          ((busy - s.prevBusy) + (idle - s.prevIdle) + (protm - s.prevProtm))))) ∧
    (∀ (s : LoadState) (buf : String) (busy idle protm : Int),
      s.status DEBUG_DVFS_LOAD = true → s.files DEBUG_DVFS_LOAD = some buf →
      ¬(linesOf buf).length < 2 → (splitWsCL ((linesOf buf).getD 1 [])).length ≥ 3 →
      parseI64 ((splitWsCL ((linesOf buf).getD 1 [])).getD 0 []) = some busy →
      parseI64 ((splitWsCL ((linesOf buf).getD 1 [])).getD 1 []) = some idle →
      parseI64 ((splitWsCL ((linesOf buf).getD 1 [])).getD 2 []) = some protm →
      0 ≤ s.prevBusy → s.prevBusy < 2 ^ 31 → 0 ≤ busy → busy < 2 ^ 31 →
      0 ≤ s.prevIdle → s.prevIdle < 2 ^ 31 → 0 ≤ idle → idle < 2 ^ 31 →
      0 ≤ s.prevProtm → s.prevProtm < 2 ^ 31 → 0 ≤ protm → protm < 2 ^ 31 →
      (busy - s.prevBusy) + (idle - s.prevIdle) + (protm - s.prevProtm) ≤ 0 →
      debug_dvfs_load_func s = gpufreq_load (dvfsUpd s busy idle protm)) ∧
    (∀ (s : LoadState) (busy idle protm : Int),
      (dvfsUpd s busy idle protm).prevBusy = busy ∧
      (dvfsUpd s busy idle protm).prevIdle = idle ∧
      (dvfsUpd s busy idle protm).prevProtm = protm ∧
      (dvfsUpd s busy idle protm).status = s.status ∧
      (dvfsUpd s busy idle protm).files = s.files) ∧
    ((debug_dvfs_load_func cexC4).2 = Except.ok 75 ∧
      (debug_dvfs_load_func cexC4).1.prevBusy = 150 ∧
      (debug_dvfs_load_func cexC4).1.prevIdle = 70 ∧
      (debug_dvfs_load_func cexC4).1.prevProtm = 10) := by
  refine ⟨?_, ?_, fun s busy idle protm => ⟨rfl, rfl, rfl, rfl, rfl⟩,
    by decide, by decide, by decide, by decide⟩
  · intro s buf busy idle protm hs hf hlen hparts h0 h1 h2
    intro b1 b2 b3 b4 b5 b6 b7 b8 b9 htot hq
    rw [debug_dvfs_primary s hs]
    have e1 : wrap64 (busy - s.prevBusy) = busy - s.prevBusy :=
      wrap64_eq_of_bounds (by omega) (by omega)
    have e2 : wrap64 (idle - s.prevIdle) = idle - s.prevIdle :=
      wrap64_eq_of_bounds (by omega) (by omega)
    have e3 : wrap64 (protm - s.prevProtm) = protm - s.prevProtm :=
      wrap64_eq_of_bounds (by omega) (by omega)
    have etot : dvfsTotal s busy idle protm =
        (busy - s.prevBusy) + (idle - s.prevIdle) + (protm - s.prevProtm) := by
      simp only [dvfsTotal, e1, e2, e3]
      rw [show wrap64 (busy - s.prevBusy + (idle - s.prevIdle)) =
          busy - s.prevBusy + (idle - s.prevIdle) from
        wrap64_eq_of_bounds (by omega) (by omega)]
      rw [wrap64_eq_of_bounds (by omega) (by omega)]
    have hbd := @tdiv_nonneg_le_100
      (((busy - s.prevBusy) + (protm - s.prevProtm)) * 100)
      ((busy - s.prevBusy) + (idle - s.prevIdle) + (protm - s.prevProtm))
      (by omega) htot (by omega)
    have eload : dvfsLoad0 s busy idle protm =
        Int.tdiv (((busy - s.prevBusy) + (protm - s.prevProtm)) * 100)
          ((busy - s.prevBusy) + (idle - s.prevIdle) + (protm - s.prevProtm)) := by
      simp only [dvfsLoad0, e1, e3, etot]
      rw [show wrap64 (busy - s.prevBusy + (protm - s.prevProtm)) =
          busy - s.prevBusy + (protm - s.prevProtm) from
        wrap64_eq_of_bounds (by omega) (by omega)]
      rw [wrap64_eq_of_bounds (by omega) (by omega)]
      exact wrap32_eq_of_bounds (by omega) (by omega)
    rw [debug_dvfs_with_pos s DEBUG_DVFS_LOAD buf busy idle protm hf hlen hparts h0 h1 h2
      (by rw [etot]; exact htot) (by rw [eload]; omega)]
    rw [eload]
  · intro s buf busy idle protm hs hf hlen hparts h0 h1 h2
    intro b1 b2 b3 b4 b5 b6 b7 b8 b9 b10 b11 b12 htot
    rw [debug_dvfs_primary s hs]
    have e1 : wrap64 (busy - s.prevBusy) = busy - s.prevBusy :=
      wrap64_eq_of_bounds (by omega) (by omega)
    have e2 : wrap64 (idle - s.prevIdle) = idle - s.prevIdle :=
      wrap64_eq_of_bounds (by omega) (by omega)
    have e3 : wrap64 (protm - s.prevProtm) = protm - s.prevProtm :=
      wrap64_eq_of_bounds (by omega) (by omega)
    have etot : dvfsTotal s busy idle protm =
        (busy - s.prevBusy) + (idle - s.prevIdle) + (protm - s.prevProtm) := by
      simp only [dvfsTotal, e1, e2, e3]
      rw [show wrap64 (busy - s.prevBusy + (idle - s.prevIdle)) =
          busy - s.prevBusy + (idle - s.prevIdle) from
        wrap64_eq_of_bounds (by omega) (by omega)]
      rw [wrap64_eq_of_bounds (by omega) (by omega)]
    exact debug_dvfs_with_invalid s DEBUG_DVFS_LOAD buf busy idle protm hf hlen hparts
      h0 h1 h2 (by rw [etot]; omega)

theorem specFirstClosest_cons_isSome (t a : Int) (rest : List Int) :
    ∃ m, specFirstClosest t (a :: rest) = some m := by
  cases hr : specFirstClosest t rest with
  | none => exact ⟨a, specFirstClosest_cons_none t a rest hr⟩
  | some y =>
    by_cases hy : (t - y).natAbs < (t - a).natAbs
    · exact ⟨y, specFirstClosest_cons_better t a y rest hr hy⟩
    · exact ⟨a, specFirstClosest_cons_keep t a y rest hr hy⟩

/-- C3.  On a non-empty ascending table, `read_freq_ge` returns a table
entry that is the smallest entry `≥ f` whenever `0 < f` and such an entry
exists, and the maximum entry when `f ≤ 0` or no entry is `≥ f`;
`read_freq_le` returns the largest entry `≤ f`, and the minimum entry when
`f ≤ 0` or no entry is `≤ f`.  The spec's six examples on [100, 200, 300]
hold. -/
theorem claim3_freq_ge_le :
    (∀ (fm : FrequencyManager) (f : Int), fm.config_list ≠ [] →
      List.Sorted (fun x y => x < y) fm.config_list →
      (read_freq_ge fm f ∈ fm.config_list ∧
        read_freq_le fm f ∈ fm.config_list ∧
        ((f ≤ 0 ∨ ∀ c ∈ fm.config_list, c < f) →
          ∀ c ∈ fm.config_list, c ≤ read_freq_ge fm f) ∧
        (0 < f → ∀ c ∈ fm.config_list, f ≤ c →
          f ≤ read_freq_ge fm f ∧ read_freq_ge fm f ≤ c) ∧
        ((f ≤ 0 ∨ ∀ c ∈ fm.config_list, f < c) →
          ∀ c ∈ fm.config_list, read_freq_le fm f ≤ c) ∧
        (0 < f → ∀ c ∈ fm.config_list, c ≤ f →
          read_freq_le fm f ≤ f ∧ c ≤ read_freq_le fm f))) ∧
    read_freq_ge tableExample 0 = 300 ∧ read_freq_le tableExample 0 = 100 ∧
    read_freq_ge tableExample 150 = 200 ∧ read_freq_le tableExample 250 = 200 ∧
    read_freq_ge tableExample 350 = 300 ∧ read_freq_le tableExample 50 = 100 := by
  refine ⟨?_, by decide, by decide, by decide, by decide, by decide, by decide⟩
  intro fm f hne hsort
  have hsortrev : List.Pairwise (fun x y => y < x) fm.config_list.reverse :=
    List.pairwise_reverse.mpr hsort
  have HGE : read_freq_ge fm f ∈ fm.config_list ∧
      ((f ≤ 0 ∨ ∀ c ∈ fm.config_list, c < f) →
        ∀ c ∈ fm.config_list, c ≤ read_freq_ge fm f) ∧
      (0 < f → ∀ c ∈ fm.config_list, f ≤ c →
        f ≤ read_freq_ge fm f ∧ read_freq_ge fm f ≤ c) := by
    by_cases hf0 : f ≤ 0
    · have hge : read_freq_ge fm f = (fm.config_list.getLast?).getD 0 := by
        simp only [read_freq_ge]
        rw [if_pos hf0]
      rw [hge]
      exact ⟨last_getD_mem _ hne, fun _ c hc => sorted_le_last _ hsort c hc,
        fun h0f => by omega⟩
    · cases hscan : scanGe f fm.config_list with
      | some a =>
        have hge : read_freq_ge fm f = a := by
          simp only [read_freq_ge]
          rw [if_neg hf0, hscan]
        obtain ⟨hamem, haf, hamin⟩ := scanGe_some_spec f fm.config_list a hscan
        rw [hge]
        refine ⟨hamem, ?_, ?_⟩
        · intro hd c hc
          rcases hd with hd | hd
          · omega
          · exact absurd (hd a hamem) (by omega)
        · intro _ c hc hfc
          exact ⟨haf, hamin hsort c hc hfc⟩
      | none =>
        have hall := (scanGe_eq_none f fm.config_list).mp hscan
        have hge : read_freq_ge fm f = (fm.config_list.getLast?).getD 0 := by
          simp only [read_freq_ge]
          rw [if_neg hf0, hscan]
        rw [hge]
        refine ⟨last_getD_mem _ hne, fun _ c hc => sorted_le_last _ hsort c hc, ?_⟩
        intro _ c hc hfc
        exact absurd (hall c hc) (by omega)
  have HLE : read_freq_le fm f ∈ fm.config_list ∧
      ((f ≤ 0 ∨ ∀ c ∈ fm.config_list, f < c) →
        ∀ c ∈ fm.config_list, read_freq_le fm f ≤ c) ∧
      (0 < f → ∀ c ∈ fm.config_list, c ≤ f →
        read_freq_le fm f ≤ f ∧ c ≤ read_freq_le fm f) := by
    by_cases hf0 : f ≤ 0
    · have hle2 : read_freq_le fm f = (fm.config_list.head?).getD 0 := by
        simp only [read_freq_le]
        rw [if_pos hf0]
      rw [hle2]
      exact ⟨head_getD_mem _ hne, fun _ c hc => sorted_head_le _ hsort c hc,
        fun h0f => by omega⟩
    · cases hscan : scanLe f fm.config_list.reverse with
      | some a =>
        have hle2 : read_freq_le fm f = a := by
          simp only [read_freq_le]
          rw [if_neg hf0, hscan]
        obtain ⟨hamem, haf, hamin⟩ := scanLe_some_spec f fm.config_list.reverse a hscan
        have hamem2 : a ∈ fm.config_list := List.mem_reverse.mp hamem
        rw [hle2]
        refine ⟨hamem2, ?_, ?_⟩
        · intro hd c hc
          rcases hd with hd | hd
          · omega
          · exact absurd (hd a hamem2) (by omega)
        · intro _ c hc hcf
          exact ⟨haf, hamin hsortrev c (List.mem_reverse.mpr hc) hcf⟩
      | none =>
        have hall := (scanLe_eq_none f fm.config_list.reverse).mp hscan
        have hle2 : read_freq_le fm f = (fm.config_list.head?).getD 0 := by
          simp only [read_freq_le]
          rw [if_neg hf0, hscan]
        rw [hle2]
        refine ⟨head_getD_mem _ hne, fun _ c hc => sorted_head_le _ hsort c hc, ?_⟩
        intro _ c hc hcf
        exact absurd (hall c (List.mem_reverse.mpr hc)) (by omega)
  exact ⟨HGE.1, HLE.1, HGE.2.1, HGE.2.2, HLE.2.1, HLE.2.2⟩

/-- C5.  Over a non-empty v2-supported subset the snapped frequency is a
subset element of minimal absolute distance to the target, and every element
strictly before it in the subset is strictly farther (first-encountered tie
break); an empty subset returns the target unchanged; on {200, 400} with
target 300 the result is 200. -/
theorem claim5_closest_v2 :
    (∀ (fm : FrequencyManager) (t : Int), fm.v2_supported_freqs = [] →
      get_closest_v2_supported_freq fm t = t) ∧
    (∀ (fm : FrequencyManager) (t : Int), fm.v2_supported_freqs ≠ [] →
      ∃ pre post,
        fm.v2_supported_freqs = pre ++ get_closest_v2_supported_freq fm t :: post ∧
        (∀ x ∈ fm.v2_supported_freqs,
          (t - get_closest_v2_supported_freq fm t).natAbs ≤ (t - x).natAbs) ∧
        (∀ x ∈ pre, (t - get_closest_v2_supported_freq fm t).natAbs < (t - x).natAbs)) ∧
    get_closest_v2_supported_freq v2Example 300 = 200 := by
  refine ⟨?_, ?_, by decide⟩
  · intro fm t hl
    simp [get_closest_v2_supported_freq, hl]
  · intro fm t hne
    cases hl : fm.v2_supported_freqs with
    | nil => exact absurd hl hne
    | cons a rest =>
      obtain ⟨m, hm⟩ := specFirstClosest_cons_isSome t a rest
      have hc : get_closest_v2_supported_freq fm t = m := by
        rw [closest_eq_spec fm t, hl, hm]
      rw [hc]
      obtain ⟨pre, post, heq, hpre⟩ := specFirstClosest_first t (a :: rest) m hm
      exact ⟨pre, post, heq,
        fun x hx => specFirstClosest_min t (a :: rest) m hm x hx, hpre⟩

/-- C6.  On an ascending (hence duplicate-free) table, looking up the index
of the frequency at any valid index returns that index:
`read_freq_index (get_freq_by_index i) = i`, verified also on all three
indices of the example table. -/
theorem claim6_round_trip :
    (∀ (fm : FrequencyManager) (i : Int),
      List.Sorted (fun x y => x < y) fm.config_list →
      0 ≤ i → i < (fm.config_list.length : Int) →
      read_freq_index fm (get_freq_by_index fm i) = i) ∧
    read_freq_index tableExample (get_freq_by_index tableExample 0) = 0 ∧
    read_freq_index tableExample (get_freq_by_index tableExample 1) = 1 ∧
    read_freq_index tableExample (get_freq_by_index tableExample 2) = 2 := by
  refine ⟨?_, by decide, by decide, by decide⟩
  intro fm i hsort h0 hi
  have hnd : fm.config_list.Nodup := List.Pairwise.imp (fun h => ne_of_lt h) hsort
  have hkn : i.toNat < fm.config_list.length := by omega
  have hidx : unify_id fm i = i := by
    simp only [unify_id]
    rw [if_neg (by omega), if_neg (by omega)]
  have hget : get_freq_by_index fm i = fm.config_list.get ⟨i.toNat, hkn⟩ := by
    simp only [get_freq_by_index, hidx]
    rw [List.get?_eq_get hkn]
    rfl
  rw [hget]
  simp only [read_freq_index]
  rw [scanIdx_nodup (fm.config_list.get ⟨i.toNat, hkn⟩) fm.config_list hnd i.toNat hkn rfl 0]
  simp
  omega

/-! ## Actuation lemmas -/

theorem write_freq_idle_eq (fm : FrequencyManager) (env : WriteEnv) (need_dcs : Bool)
    (hg : fm.gpuv2 = true) (hv : env.pathExists GPUFREQV2_VOLT = true)
    (ho : env.pathExists GPUFREQV2_OPP = true) :
    write_freq fm env need_dcs true =
      write_idle_mode fm env GPUFREQV2_VOLT GPUFREQV2_OPP "0 0" "0" := by
  simp [write_freq, hg, hv, ho]

theorem write_idle_v2_err (fm : FrequencyManager) (env : WriteEnv) (vp op : String)
    (hg : fm.gpuv2 = true) (e : GovError)
    (hw : env.writeRes vp "0 0" = Except.error e) :
    write_idle_mode fm env vp op "0 0" "0" = ([(vp, "0 0")], Except.error e) := by
  simp [write_idle_mode, write_file_safe, hg, hw]

theorem write_idle_v2_ok (fm : FrequencyManager) (env : WriteEnv) (vp op : String)
    (hg : fm.gpuv2 = true) (n m : Nat)
    (hw : env.writeRes vp "0 0" = Except.ok n)
    (h2 : env.writeRes op "-1" = Except.ok m) (hm : m ≠ 0) :
    write_idle_mode fm env vp op "0 0" "0" = ([(vp, "0 0"), (op, "-1")], Except.ok ()) := by
  simp [write_idle_mode, write_file_safe, hg, hw, h2, hm]

theorem write_idle_v2_retry (fm : FrequencyManager) (env : WriteEnv) (vp op : String)
    (hg : fm.gpuv2 = true) (n : Nat)
    (hw : env.writeRes vp "0 0" = Except.ok n)
    (h2 : env.writeRes op "-1" = Except.ok 0 ∨ ∃ e, env.writeRes op "-1" = Except.error e) :
    (write_idle_mode fm env vp op "0 0" "0").1 = [(vp, "0 0"), (op, "-1"), (op, "0")] := by
  rcases h2 with h2 | ⟨e, h2⟩ <;> cases h3 : env.writeRes op "0" <;>
    simp [write_idle_mode, write_file_safe, hg, hw, h2, h3]

theorem write_idle_mode_contents (fm : FrequencyManager) (env : WriteEnv) (vp op : String) :
    ∀ w ∈ (write_idle_mode fm env vp op "0 0" "0").1,
      w.2 = "0 0" ∨ w.2 = "-1" ∨ w.2 = "0" := by
  intro w hw
  by_cases hg : fm.gpuv2 = true
  · cases h1 : env.writeRes vp "0 0" with
    | error e =>
      simp [write_idle_mode, write_file_safe, hg, h1] at hw
      simp [hw]
    | ok n =>
      cases h2 : env.writeRes op "-1" with
      | error e =>
        cases h3 : env.writeRes op "0" with
        | error e2 =>
          simp [write_idle_mode, write_file_safe, hg, h1, h2, h3] at hw
          rcases hw with rfl | rfl | rfl <;> simp
        | ok k =>
          simp [write_idle_mode, write_file_safe, hg, h1, h2, h3] at hw
          rcases hw with rfl | rfl | rfl <;> simp
      | ok m =>
        by_cases hm : m = 0
        · subst hm
          cases h3 : env.writeRes op "0" with
          | error e2 =>
            simp [write_idle_mode, write_file_safe, hg, h1, h2, h3] at hw
            rcases hw with rfl | rfl | rfl <;> simp
          | ok k =>
            simp [write_idle_mode, write_file_safe, hg, h1, h2, h3] at hw
            rcases hw with rfl | rfl | rfl <;> simp
        · simp [write_idle_mode, write_file_safe, hg, h1, h2, hm] at hw
          rcases hw with rfl | rfl <;> simp
  · have hg2 : fm.gpuv2 = false := by
      revert hg
      cases fm.gpuv2 <;> simp
    cases h1 : env.writeRes vp "0 0" with
    | error e =>
      simp [write_idle_mode, write_file_safe, hg2, h1] at hw
      simp [hw]
    | ok n =>
      cases h2 : env.writeRes op "0" with
      | error e =>
        simp [write_idle_mode, write_file_safe, hg2, h1, h2] at hw
        rcases hw with rfl | rfl <;> simp
      | ok k =>
        simp [write_idle_mode, write_file_safe, hg2, h1, h2] at hw
        rcases hw with rfl | rfl <;> simp

/-- C7.  With both control files of the active generation present,
`write_freq` selects its write mode by the three conditions in order:
`is_idle` picks idle mode; otherwise `need_dcs ∧ v2 ∧ index 0` picks dcs
mode; otherwise a zero current voltage picks no-volt mode; otherwise normal
mode — shown concretely for the idle case as well. -/
theorem claim7_mode_selection :
    (∀ (fm : FrequencyManager) (env : WriteEnv) (need_dcs : Bool),
      env.pathExists (if fm.gpuv2 then GPUFREQV2_VOLT else GPUFREQ_VOLT) = true →
      env.pathExists (if fm.gpuv2 then GPUFREQV2_OPP else GPUFREQ_OPP) = true →
      write_freq fm env need_dcs true =
        write_idle_mode fm env (if fm.gpuv2 then GPUFREQV2_VOLT else GPUFREQ_VOLT)
          (if fm.gpuv2 then GPUFREQV2_OPP else GPUFREQ_OPP) "0 0" "0") ∧
    (∀ (fm : FrequencyManager) (env : WriteEnv),
      env.pathExists GPUFREQV2_VOLT = true → env.pathExists GPUFREQV2_OPP = true →
      fm.gpuv2 = true → fm.cur_freq_idx = 0 →
      write_freq fm env true false =
        write_dcs_mode fm env GPUFREQV2_VOLT GPUFREQV2_OPP "0 0" "-1" "0") ∧
    (∀ (fm : FrequencyManager) (env : WriteEnv) (need_dcs : Bool),
      env.pathExists (if fm.gpuv2 then GPUFREQV2_VOLT else GPUFREQ_VOLT) = true →
      env.pathExists (if fm.gpuv2 then GPUFREQV2_OPP else GPUFREQ_OPP) = true →
      ¬(need_dcs = true ∧ fm.gpuv2 = true ∧ fm.cur_freq_idx = 0) →
      fm.cur_volt = 0 →
      write_freq fm env need_dcs false =
        write_no_volt_mode fm env (if fm.gpuv2 then GPUFREQV2_VOLT else GPUFREQ_VOLT)
          (if fm.gpuv2 then GPUFREQV2_OPP else GPUFREQ_OPP) "0 0"
          (toString (if fm.gpuv2 then get_closest_v2_supported_freq fm fm.cur_freq
            else fm.cur_freq))) ∧
    (∀ (fm : FrequencyManager) (env : WriteEnv) (need_dcs : Bool),
      env.pathExists (if fm.gpuv2 then GPUFREQV2_VOLT else GPUFREQ_VOLT) = true →
      env.pathExists (if fm.gpuv2 then GPUFREQV2_OPP else GPUFREQ_OPP) = true →
      ¬(need_dcs = true ∧ fm.gpuv2 = true ∧ fm.cur_freq_idx = 0) →
      fm.cur_volt ≠ 0 →
      write_freq fm env need_dcs false =
        write_normal_mode fm env (if fm.gpuv2 then GPUFREQV2_VOLT else GPUFREQ_VOLT)
          (if fm.gpuv2 then GPUFREQV2_OPP else GPUFREQ_OPP) "0 0" "-1" "0"
          (toString (if fm.gpuv2 then get_closest_v2_supported_freq fm fm.cur_freq
            else fm.cur_freq) ++ " " ++ toString fm.cur_volt)) ∧
    write_freq fmV2 envAllOk false true =
      ([(GPUFREQV2_VOLT, "0 0"), (GPUFREQV2_OPP, "-1")], Except.ok ()) := by
  refine ⟨?_, ?_, ?_, ?_, by rfl⟩
  · intro fm env need_dcs hv ho
    simp [write_freq, hv, ho]
  · intro fm env hv ho hg hidx
    simp [write_freq, hg, hv, ho, hidx]
  · intro fm env need_dcs hv ho hn hv0
    have hb : (need_dcs && fm.gpuv2 && (fm.cur_freq_idx == 0)) = false := by
      by_contra hcon
      rw [Bool.not_eq_false] at hcon
      simp only [Bool.and_eq_true, beq_iff_eq] at hcon
      exact hn ⟨hcon.1.1, hcon.1.2, hcon.2⟩
    simp [write_freq, hv, ho, hb, hv0]
  · intro fm env need_dcs hv ho hn hv0
    have hb : (need_dcs && fm.gpuv2 && (fm.cur_freq_idx == 0)) = false := by
      by_contra hcon
      rw [Bool.not_eq_false] at hcon
      simp only [Bool.and_eq_true, beq_iff_eq] at hcon
      exact hn ⟨hcon.1.1, hcon.1.2, hcon.2⟩
    have hb2 : (fm.cur_volt == 0) = false := by
      simp [hv0]
    simp [write_freq, hv, ho, hb, hb2]

/-- C8.  When idle on the v2 driver (files present), `write_freq` first
writes the voltage reset "0 0" to the voltage control file, then "-1" to
the opp control file, retrying with "0" exactly when that write fails or
returns 0; and in idle mode on v2 every written payload is one of "0 0",
"-1", "0" — never a "freq volt" pair. -/
theorem claim8_idle_v2 :
    (∀ (fm : FrequencyManager) (env : WriteEnv) (need_dcs : Bool),
      fm.gpuv2 = true →
      ∀ w ∈ (write_freq fm env need_dcs true).1,
        w.2 = "0 0" ∨ w.2 = "-1" ∨ w.2 = "0") ∧
    (∀ (fm : FrequencyManager) (env : WriteEnv) (need_dcs : Bool),
      fm.gpuv2 = true → env.pathExists GPUFREQV2_VOLT = true →
      env.pathExists GPUFREQV2_OPP = true →
      (∀ e, env.writeRes GPUFREQV2_VOLT "0 0" = Except.error e →
        write_freq fm env need_dcs true = ([(GPUFREQV2_VOLT, "0 0")], Except.error e)) ∧
      (∀ n m, env.writeRes GPUFREQV2_VOLT "0 0" = Except.ok n →
        env.writeRes GPUFREQV2_OPP "-1" = Except.ok m → m ≠ 0 →
        write_freq fm env need_dcs true =
          ([(GPUFREQV2_VOLT, "0 0"), (GPUFREQV2_OPP, "-1")], Except.ok ())) ∧
      (∀ n, env.writeRes GPUFREQV2_VOLT "0 0" = Except.ok n →
        (env.writeRes GPUFREQV2_OPP "-1" = Except.ok 0 ∨
          ∃ e, env.writeRes GPUFREQV2_OPP "-1" = Except.error e) →
        (write_freq fm env need_dcs true).1 =
          [(GPUFREQV2_VOLT, "0 0"), (GPUFREQV2_OPP, "-1"), (GPUFREQV2_OPP, "0")])) ∧
    write_freq fmV2 envAllOk false true =
      ([(GPUFREQV2_VOLT, "0 0"), (GPUFREQV2_OPP, "-1")], Except.ok ()) := by
  refine ⟨?_, ?_, by rfl⟩
  · intro fm env need_dcs hg w hw
    by_cases hex : (!env.pathExists (if fm.gpuv2 then GPUFREQV2_VOLT else GPUFREQ_VOLT) ||
        !env.pathExists (if fm.gpuv2 then GPUFREQV2_OPP else GPUFREQ_OPP)) = true
    · simp only [write_freq, hex, if_true] at hw
      simp at hw
    · simp only [write_freq, hex, Bool.false_eq_true, if_false, if_true] at hw
      exact write_idle_mode_contents fm env _ _ w hw
  · intro fm env need_dcs hg hv ho
    rw [write_freq_idle_eq fm env need_dcs hg hv ho]
    exact ⟨fun e he => write_idle_v2_err fm env _ _ hg e he,
      fun n m hn hm hmz => write_idle_v2_ok fm env _ _ hg n m hn hm hmz,
      fun n hn hd => write_idle_v2_retry fm env _ _ hg n hn hd⟩

/-- C9.  If either control file of the active driver generation is missing,
`write_freq` performs no write at all and returns success — concretely, with
no control files present the call is a silent no-op. -/
theorem claim9_missing_noop :
    (∀ (fm : FrequencyManager) (env : WriteEnv) (need_dcs is_idle : Bool),
      (env.pathExists (if fm.gpuv2 then GPUFREQV2_VOLT else GPUFREQ_VOLT) = false ∨
        env.pathExists (if fm.gpuv2 then GPUFREQV2_OPP else GPUFREQ_OPP) = false) →
      write_freq fm env need_dcs is_idle = ([], Except.ok ())) ∧
    write_freq fmV2 envNone false false = ([], Except.ok ()) := by
  refine ⟨?_, by rfl⟩
  intro fm env need_dcs is_idle h
  rcases h with h | h <;> simp [write_freq, h]
